import Mathlib

/-!
Verification development for the ESP32 device-gateway backend.

The Rust backend (src/backend) is shallowly embedded: pure fragments become
Lean functions, stateful components become explicit state-passing functions,
machine integers become Nat/Int with explicit wrap-around where the source
wraps, and fallible code returns Except/Option.  Nondeterministic inputs of
the runtime (uuids, clock instants, socket outcomes) are passed as explicit
parameters.
-/

namespace Backend

/-! ## JSON value model (shallow embedding of serde_json::Value)

Floating-point payloads are outside the model; numbers are integers, which
covers every value the verified code paths construct or inspect. -/

inductive Json where
  | null : Json
  | bool (b : Bool) : Json
  | num (n : Int) : Json
  | str (s : String) : Json
  | arr (items : List Json) : Json
  | obj (fields : List (String × Json)) : Json
deriving Repr

/-- serde_json::Value::get on an object: first binding of the key. -/
def Json.get : Json → String → Option Json
  | .obj fields, key =>
    match fields.find? (fun p => p.1 = key) with
    | some p => some p.2
    | none => none
  | _, _ => none

/-- Value::as_str. -/
def Json.asStr : Json → Option String
  | .str s => some s
  | _ => none

/-- Value::as_u64.  serde_json's Number holds u64, i64 or f64; an integer
Number is u64-representable exactly when it is non-negative (values beyond
u64 can only be floats, which are outside this model). -/
def Json.asU64 : Json → Option Nat
  | .num n => if 0 ≤ n then some n.toNat else none
  | _ => none

/-- Value::as_bool. -/
def Json.asBool : Json → Option Bool
  | .bool b => some b
  | _ => none

/-! ## esp32_types.rs -/

/-- Esp32Command (esp32_types.rs). `value` is a u32 in the source; the
embedding keeps a Nat, and theorems that range over commands carry the
`value < 2^32` bound explicitly. -/
inductive Esp32Command where
  | SetVariable (name : String) (value : Nat)
  | StartOption (start_option : String)
  | Reset (reset : Bool)
  | GetStatus
deriving Repr, DecidableEq

/-- Esp32Command::to_json, at the level of the JSON value the source
serialises (serde string serialisation followed by re-parsing is the
identity on these trees). -/
def Esp32Command.to_json : Esp32Command → Json
  | .SetVariable name value =>
    .obj [("setVariable", .obj [("name", .str name), ("value", .num value)])]
  | .StartOption start_option => .obj [("startOption", .str start_option)]
  | .Reset reset => .obj [("reset", .bool reset)]
  | .GetStatus => .obj [("getStatus", .bool true)]

/-- Esp32Error (esp32_types.rs); message payloads are kept abstractly. -/
inductive Esp32Error where
  | ConnectionFailed (reason : String)
  | TcpError (reason : String)
  | JsonError (reason : String)
  | InvalidCommand (reason : String)
  | DeviceNotFound (id : String)
  | Timeout
deriving Repr, DecidableEq

/-- ConnectionState (esp32_types.rs). -/
inductive ConnectionState where
  | Disconnected
  | Connecting
  | Connected
  | Failed (reason : String)
deriving Repr, DecidableEq

/-- DeviceSource (esp32_types.rs). -/
inductive DeviceSource where
  | Udp (mac_address : String)
  | Uart
  | Tcp
deriving Repr, DecidableEq

/-- Esp32DeviceConfig (esp32_types.rs).  ip_address is kept as a string. -/
structure Esp32DeviceConfig where
  device_id : String
  device_name : String
  ip_address : String
  tcp_port : Nat
  udp_port : Nat
  auto_connect : Bool
  auto_start_option : Option String
  udp_timeout_seconds : Nat
  device_source : DeviceSource
deriving Repr, DecidableEq

/-- Esp32DeviceConfig::new. -/
def Esp32DeviceConfig.new (device_id ip_address : String) (tcp_port udp_port : Nat) :
    Esp32DeviceConfig :=
  { device_id := device_id
    device_name := device_id
    ip_address := ip_address
    tcp_port := tcp_port
    udp_port := udp_port
    auto_connect := false
    auto_start_option := none
    udp_timeout_seconds := 10
    device_source := .Tcp }

/-- Esp32DeviceConfig::new_uart. -/
def Esp32DeviceConfig.new_uart (device_id : String) : Esp32DeviceConfig :=
  { device_id := device_id
    device_name := device_id
    ip_address := "0.0.0.0"
    tcp_port := 0
    udp_port := 0
    auto_connect := false
    auto_start_option := none
    udp_timeout_seconds := 30
    device_source := .Uart }

/-- Esp32DeviceConfig::new_udp. -/
def Esp32DeviceConfig.new_udp (mac_address ip_address : String) (udp_port : Nat) :
    Esp32DeviceConfig :=
  { device_id := mac_address
    device_name := mac_address
    ip_address := ip_address
    tcp_port := 0
    udp_port := udp_port
    auto_connect := false
    auto_start_option := none
    udp_timeout_seconds := 30
    device_source := .Udp mac_address }

/-! ## events.rs -/

/-- SubscriptionType (events.rs). -/
inductive SubscriptionType where
  | Light
  | Full
deriving Repr, DecidableEq

/-- DeviceEvent (events.rs), all 13 variants with their fields. -/
inductive DeviceEvent where
  | DeviceCommand (command : String) (parameters : Option Json)
  | DeviceStatusUpdate (status : String) (ip_address : Option String)
      (firmware_version : Option String)
  | DeviceConfigUpdate (config : Json)
  | DeviceSensorData (sensor : String) (value : Json) (timestamp : Int)
  | UserJoined (user_id display_name user_color : String)
  | UserLeft (user_id display_name user_color : String)
  | Esp32Command (device_id : String) (command : Json)
  | Esp32VariableUpdate (device_id variable_name variable_value : String)
      (min max : Option Nat)
  | Esp32StartOptions (device_id : String) (options : List String)
  | Esp32ChangeableVariables (device_id : String) (vars : List Json)
  | Esp32UdpBroadcast (device_id message from_ip : String) (from_port : Nat)
  | Esp32ConnectionStatus (device_id : String) (connected : Bool)
      (device_ip : String) (tcp_port udp_port : Nat)
  | Esp32DeviceInfo (device_id : String) (device_name firmware_version : Option String)
      (uptime : Option Nat)
  | Esp32DeviceDiscovered (device_id device_ip : String) (tcp_port udp_port : Nat)
      (discovered_at : String) (mac_address mdns_hostname : Option String)
deriving Repr

/-- DeviceEvent::user_joined. -/
def DeviceEvent.user_joined (user_id display_name user_color : String) : DeviceEvent :=
  .UserJoined user_id display_name user_color

/-- DeviceEvent::user_left. -/
def DeviceEvent.user_left (user_id display_name user_color : String) : DeviceEvent :=
  .UserLeft user_id display_name user_color

/-- DeviceEvent::esp32_connection_status. -/
def DeviceEvent.esp32_connection_status (device_id : String) (connected : Bool)
    (device_ip : String) (tcp_port udp_port : Nat) : DeviceEvent :=
  .Esp32ConnectionStatus device_id connected device_ip tcp_port udp_port

/-- DeviceEvent::esp32_udp_broadcast. -/
def DeviceEvent.esp32_udp_broadcast (device_id message from_ip : String)
    (from_port : Nat) : DeviceEvent :=
  .Esp32UdpBroadcast device_id message from_ip from_port

/-- DeviceEvent::esp32_device_discovered. -/
def DeviceEvent.esp32_device_discovered (device_id device_ip : String)
    (tcp_port udp_port : Nat) (discovered_at : String)
    (mac_address mdns_hostname : Option String) : DeviceEvent :=
  .Esp32DeviceDiscovered device_id device_ip tcp_port udp_port discovered_at
    mac_address mdns_hostname

/-- DeviceEvent::validate (events.rs). -/
def DeviceEvent.validate : DeviceEvent → Except String Unit
  | .DeviceCommand command _ =>
    if command.isEmpty then .error "DeviceCommand requires non-empty command"
    else .ok ()
  | .DeviceStatusUpdate status _ _ =>
    if status.isEmpty then .error "DeviceStatusUpdate requires non-empty status"
    else .ok ()
  | .DeviceConfigUpdate _ => .ok ()
  | .DeviceSensorData sensor _ _ =>
    if sensor.isEmpty then .error "DeviceSensorData requires non-empty sensor name"
    else .ok ()
  | .UserJoined user_id display_name user_color =>
    if user_id.isEmpty ∨ display_name.isEmpty ∨ user_color.isEmpty then
      .error "UserJoined requires non-empty user_id, display_name, and user_color"
    else .ok ()
  | .UserLeft user_id display_name user_color =>
    if user_id.isEmpty ∨ display_name.isEmpty ∨ user_color.isEmpty then
      .error "UserLeft requires non-empty user_id, display_name, and user_color"
    else .ok ()
  | .Esp32Command device_id _ =>
    if device_id.isEmpty then .error "Esp32Command requires non-empty device_id"
    else .ok ()
  | .Esp32VariableUpdate device_id variable_name _ _ _ =>
    if device_id.isEmpty ∨ variable_name.isEmpty then
      .error "Esp32VariableUpdate requires non-empty device_id and variable_name"
    else .ok ()
  | .Esp32StartOptions device_id _ =>
    if device_id.isEmpty then .error "Esp32StartOptions requires non-empty device_id"
    else .ok ()
  | .Esp32ChangeableVariables device_id _ =>
    if device_id.isEmpty then
      .error "Esp32ChangeableVariables requires non-empty device_id"
    else .ok ()
  | .Esp32UdpBroadcast device_id _ _ _ =>
    if device_id.isEmpty then .error "Esp32UdpBroadcast requires non-empty device_id"
    else .ok ()
  | .Esp32ConnectionStatus device_id _ _ _ _ =>
    if device_id.isEmpty then
      .error "Esp32ConnectionStatus requires non-empty device_id"
    else .ok ()
  | .Esp32DeviceInfo device_id _ _ _ =>
    if device_id.isEmpty then .error "Esp32DeviceInfo requires non-empty device_id"
    else .ok ()
  | .Esp32DeviceDiscovered device_id device_ip _ _ _ _ _ =>
    if device_id.isEmpty ∨ device_ip.isEmpty then
      .error "Esp32DeviceDiscovered requires non-empty device_id and device_ip"
    else .ok ()

/-- EventWithMetadata (events.rs). -/
structure EventWithMetadata where
  event : DeviceEvent
  id : String
  timestamp : Int
  user_id : String
  is_replay : Option Bool
deriving Repr

/-- ServerMessage (events.rs). -/
inductive ServerMessage where
  | DeviceEvents (device_id : String) (events_for_device : List DeviceEvent)
  | Pong (message_type : String) (timestamp : Option Nat)
deriving Repr

/-- ServerMessage::device_events. -/
def ServerMessage.device_events (device_id : String)
    (events_for_device : List DeviceEvent) : ServerMessage :=
  .DeviceEvents device_id events_for_device

/-! ## Association-list model of std/tokio HashMap

HashMap reads/writes are embedded as association lists: lookup takes the
first binding, insert overwrites an existing binding in place (appending a
new one otherwise), remove drops the binding.  HashMap iteration order is
unspecified in the source; the embedding fixes insertion order, and every
theorem below depends only on per-key content, never on that order. -/

def alLookup {α : Type} (m : List (String × α)) (k : String) : Option α :=
  match m.find? (fun p => p.1 = k) with
  | some p => some p.2
  | none => none

def alInsert {α : Type} (m : List (String × α)) (k : String) (v : α) :
    List (String × α) :=
  match m with
  | [] => [(k, v)]
  | (k0, v0) :: rest =>
    if k0 = k then (k, v) :: rest else (k0, v0) :: alInsert rest k v

def alRemove {α : Type} (m : List (String × α)) (k : String) : List (String × α) :=
  m.filter (fun p => p.1 ≠ k)

def alContains {α : Type} (m : List (String × α)) (k : String) : Bool :=
  (alLookup m k).isSome

/-! ## device_store.rs: user colors -/

/-- USER_COLORS (device_store.rs): fixed 16-entry palette. -/
def USER_COLORS : List String :=
  ["#FF6B6B", "#4ECDC4", "#45B7D1", "#96CEB4",
   "#FFEAA7", "#DDA0DD", "#98D8C8", "#F7DC6F",
   "#BB8FCE", "#85C1E9", "#F8C471", "#82E0AA",
   "#F1948A", "#AED6F1", "#A9DFBF", "#F9E79F"]

/-- UTF-8 encoding of one char as byte values (str::bytes collaborator). -/
def utf8BytesOfChar (c : Char) : List Nat :=
  let n := c.toNat
  if n < 128 then [n]
  else if n < 2048 then [192 + n / 64, 128 + n % 64]
  else if n < 65536 then
    [224 + n / 4096, 128 + (n / 64) % 64, 128 + n % 64]
  else
    [240 + n / 262144, 128 + (n / 4096) % 64, 128 + (n / 64) % 64, 128 + n % 64]

/-- fnv_hash (device_store.rs): FNV-1a over the UTF-8 bytes, u32 wrapping. -/
def fnv_hash (input : String) : Nat :=
  (input.data.flatMap utf8BytesOfChar).foldl
    (fun hash byte => ((hash ^^^ byte) * 16777619) % 4294967296) 2166136261

/-- Hex digit characters used by the {:02X} format. -/
def hexDigitChar (n : Nat) : Char :=
  if n = 0 then '0' else if n = 1 then '1' else if n = 2 then '2'
  else if n = 3 then '3' else if n = 4 then '4' else if n = 5 then '5'
  else if n = 6 then '6' else if n = 7 then '7' else if n = 8 then '8'
  else if n = 9 then '9' else if n = 10 then 'A' else if n = 11 then 'B'
  else if n = 12 then 'C' else if n = 13 then 'D' else if n = 14 then 'E'
  else 'F'

/-- format "{:02X}" for a byte value. -/
def hex2 (n : Nat) : List Char := [hexDigitChar (n / 16 % 16), hexDigitChar (n % 16)]

/-- Value of one hex digit (u32::from_str_radix collaborator). -/
def hexDigitVal (c : Char) : Option Nat :=
  if c = '0' then some 0 else if c = '1' then some 1 else if c = '2' then some 2
  else if c = '3' then some 3 else if c = '4' then some 4 else if c = '5' then some 5
  else if c = '6' then some 6 else if c = '7' then some 7 else if c = '8' then some 8
  else if c = '9' then some 9 else if c = 'a' ∨ c = 'A' then some 10
  else if c = 'b' ∨ c = 'B' then some 11 else if c = 'c' ∨ c = 'C' then some 12
  else if c = 'd' ∨ c = 'D' then some 13 else if c = 'e' ∨ c = 'E' then some 14
  else if c = 'f' ∨ c = 'F' then some 15 else none

/-- u32::from_str_radix(s, 16): fails on an empty string or a non-hex char. -/
def parseHex (cs : List Char) : Option Nat :=
  match cs with
  | [] => none
  | _ =>
    cs.foldl
      (fun acc c =>
        match acc, hexDigitVal c with
        | some a, some d => some (a * 16 + d)
        | _, _ => none)
      (some 0)

/-- create_color_variation (device_store.rs). -/
def create_color_variation (base_color : String) (variation_factor : Nat) : String :=
  match parseHex (base_color.data.drop 1) with
  | some color_num =>
    let r := color_num / 65536 % 256
    let g := color_num / 256 % 256
    let b := color_num % 256
    let mod_factor := variation_factor % 8 * 8
    let r_mod := min ((r + mod_factor) % 256) 255
    let g_mod := min ((g + mod_factor) % 256) 255
    let b_mod := min ((b + mod_factor) % 256) 255
    String.mk ('#' :: (hex2 r_mod ++ hex2 g_mod ++ hex2 b_mod))
  | none => base_color

/-- The fallback probe loop of generate_user_color: try indices
primary+1 .. primary+15 (mod 16) in order, first free color wins. -/
def probeColors (primary_index i : Nat) (existing_colors : List String) :
    Option String :=
  if h : i < USER_COLORS.length then
    let fallback_color := USER_COLORS.getD ((primary_index + i) % USER_COLORS.length) ""
    if existing_colors.contains fallback_color then
      probeColors primary_index (i + 1) existing_colors
    else some fallback_color
  else none
termination_by USER_COLORS.length - i

/-- generate_user_color (device_store.rs).  Only membership in
existing_colors is ever inspected, so the unspecified HashMap value order
at the call site cannot influence the result. -/
def generate_user_color (user_id : String) (existing_colors : List String) : String :=
  let hash := fnv_hash user_id
  let primary_index := hash % USER_COLORS.length
  let preferred_color := USER_COLORS.getD primary_index ""
  if ¬ existing_colors.contains preferred_color then preferred_color
  else
    match probeColors primary_index 1 existing_colors with
    | some c => c
    | none => create_color_variation preferred_color existing_colors.length

/-! ## device_store.rs: the event store -/

/-- ClientConnection (device_store.rs).  The mpsc sender half is identified
by the client_id; deliveries are reported as (client_id, message) pairs. -/
structure ClientConnection where
  user_id : String
  display_name : String
  client_id : String
  user_color : String
  subscription_type : SubscriptionType
deriving Repr

/-- DeviceEventStore state (device_store.rs). -/
structure DeviceEventStore where
  device_events : List (String × List EventWithMetadata)
  active_connections : List (String × List ClientConnection)
  max_debug_messages_per_device : Nat
deriving Repr

/-- DeviceEventStore::new with a given cap (new() uses 200). -/
def DeviceEventStore.mkStore (cap : Nat) : DeviceEventStore :=
  { device_events := [], active_connections := [], max_debug_messages_per_device := cap }

/-- matches!(event, DeviceEvent::Esp32UdpBroadcast { .. }). -/
def DeviceEvent.isUdpBroadcast : DeviceEvent → Bool
  | .Esp32UdpBroadcast _ _ _ _ => true
  | _ => false

/-- matches!(event, DeviceEvent::Esp32ConnectionStatus { .. }). -/
def DeviceEvent.isConnectionStatus : DeviceEvent → Bool
  | .Esp32ConnectionStatus _ _ _ _ _ => true
  | _ => false

/-- Number of retained Esp32UdpBroadcast entries in one device history. -/
def rawCount (l : List EventWithMetadata) : Nat :=
  (l.filter (fun e => e.event.isUdpBroadcast)).length

/-- Remove the first (oldest) Esp32UdpBroadcast entry; mirrors
position(..) followed by remove(idx) in add_event. -/
def removeFirstRaw : List EventWithMetadata → List EventWithMetadata
  | [] => []
  | e :: rest => if e.event.isUdpBroadcast then rest else e :: removeFirstRaw rest

/-- DeviceEventStore::get_device_events. -/
def DeviceEventStore.get_device_events (st : DeviceEventStore) (device_id : String) :
    List DeviceEvent :=
  match alLookup st.device_events device_id with
  | some device_events => device_events.map (fun em => em.event)
  | none => []

/-- DeviceEventStore::broadcast_event: deliveries as (client_id, message)
pairs, skipping the sender and filtering Light subscriptions down to
connection-status events.  Send failures only log in the source, and the
function always returns Ok. -/
def DeviceEventStore.broadcast_event (st : DeviceEventStore) (device_id : String)
    (event : DeviceEvent) (sender_client_id : String) :
    List (String × ServerMessage) :=
  match alLookup st.active_connections device_id with
  | none => []
  | some device_connections =>
    let is_connection_status := event.isConnectionStatus
    let message := ServerMessage.device_events device_id [event]
    device_connections.filterMap (fun conn =>
      if conn.client_id = sender_client_id then none
      else if conn.subscription_type = SubscriptionType.Light ∧ ¬ is_connection_status
      then none
      else some (conn.client_id, message))

/-- DeviceEventStore::add_event.  fresh_id and now stand for the uuid and
clock effects; the returned list is the broadcast deliveries. -/
def DeviceEventStore.add_event (st : DeviceEventStore) (device_id : String)
    (event : DeviceEvent) (user_id _client_id : String) (fresh_id : String)
    (now : Int) : Except String (DeviceEventStore × List (String × ServerMessage)) :=
  match event.validate with
  | .error e => .error ("Invalid event: " ++ e)
  | .ok _ =>
    let is_debug_message := event.isUdpBroadcast
    let max_debug := if is_debug_message then st.max_debug_messages_per_device else 0
    let event_with_metadata : EventWithMetadata :=
      { event := event, id := fresh_id, timestamp := now, user_id := user_id,
        is_replay := none }
    let old := (alLookup st.device_events device_id).getD []
    let pruned :=
      if is_debug_message ∧ max_debug > 0 then
        if rawCount old ≥ max_debug then removeFirstRaw old else old
      else old
    let new_list := pruned ++ [event_with_metadata]
    let st2 : DeviceEventStore :=
      { st with device_events := alInsert st.device_events device_id new_list }
    let deliveries := st2.broadcast_event device_id event _client_id
    .ok (st2, deliveries)

/-- Per-user colour snapshot taken in register_client: one entry per
user_id, later connections overwriting earlier ones, then the values. -/
def userColorValues (conns : List ClientConnection) : List String :=
  (conns.foldl (fun m c => alInsert m c.user_id c.user_color) []).map (fun p => p.2)

/-- Result of register_client: updated store, the single DeviceEvent handed
to broadcast_event (a real UserJoined or the USER_COUNT_REFRESH sentinel),
and the replay snapshot returned to the caller. -/
structure RegisterResult where
  store : DeviceEventStore
  joined_event : DeviceEvent
  was_reconnection : Bool
  assigned_color : String
  replay : List DeviceEvent
deriving Repr

/-- DeviceEventStore::register_client (device_store.rs).  Note that the
reconnection probe reads the connection list before the same-client_id
retain, exactly as the source does. -/
def DeviceEventStore.register_client (st : DeviceEventStore)
    (device_id user_id display_name client_id : String)
    (subscription_type : SubscriptionType) : RegisterResult :=
  let device_connections := (alLookup st.active_connections device_id).getD []
  let existing_user_color :=
    (device_connections.find? (fun conn => conn.user_id = user_id)).map
      (fun conn => conn.user_color)
  let survivors := device_connections.filter (fun conn => conn.client_id ≠ client_id)
  let is_reconnection := existing_user_color.isSome
  let user_color :=
    match existing_user_color with
    | some color => color
    | none => generate_user_color user_id (userColorValues survivors)
  let connection : ClientConnection :=
    { user_id := user_id, display_name := display_name, client_id := client_id,
      user_color := user_color, subscription_type := subscription_type }
  let st2 : DeviceEventStore :=
    { st with active_connections :=
        alInsert st.active_connections device_id (survivors ++ [connection]) }
  let joined_event :=
    if ¬ is_reconnection then DeviceEvent.user_joined user_id display_name user_color
    else DeviceEvent.user_joined "USER_COUNT_REFRESH" "" ""
  { store := st2, joined_event := joined_event, was_reconnection := is_reconnection,
    assigned_color := user_color, replay := st2.get_device_events device_id }

/-- DeviceEventStore::unregister_client: updated store plus the UserLeft or
USER_COUNT_REFRESH event handed to broadcast_event (none when the client
was not registered for the device). -/
def DeviceEventStore.unregister_client (st : DeviceEventStore)
    (device_id client_id : String) : DeviceEventStore × Option DeviceEvent :=
  match alLookup st.active_connections device_id with
  | none => (st, none)
  | some device_connections =>
    let connection_to_remove :=
      device_connections.find? (fun conn => conn.client_id = client_id)
    let remaining := device_connections.filter (fun conn => conn.client_id ≠ client_id)
    let ac2 :=
      if remaining.isEmpty then alRemove st.active_connections device_id
      else alInsert st.active_connections device_id remaining
    let st2 : DeviceEventStore := { st with active_connections := ac2 }
    match connection_to_remove with
    | none => (st2, none)
    | some removed_connection =>
      let user_still_connected :=
        match alLookup st2.active_connections device_id with
        | some conns => conns.any (fun conn => conn.user_id = removed_connection.user_id)
        | none => false
      if !user_still_connected then
        (st2, some (DeviceEvent.user_left removed_connection.user_id
          removed_connection.display_name removed_connection.user_color))
      else
        (st2, some (DeviceEvent.user_left "USER_COUNT_REFRESH" "" ""))

/-! ## esp32_manager.rs: parse_websocket_command -/

/-- Esp32Manager::parse_websocket_command (esp32_manager.rs), split over
three definitions in source order.  The source falls through to the next
command shape whenever an inner field lookup fails; `value_num as u32`
truncates modulo 2^32.  The InvalidCommand payload string is kept
abstract. -/
def parse_reset_or_status (data : Json) : Except Esp32Error Esp32Command :=
  if (data.get "reset").isSome then .ok (Esp32Command.Reset true)
  else if (data.get "getStatus").isSome then .ok Esp32Command.GetStatus
  else .error (.InvalidCommand "Unknown command")

/-- The startOption branch of parse_websocket_command, falling through to
the reset/getStatus checks. -/
def parse_start_option (data : Json) : Except Esp32Error Esp32Command :=
  match data.get "startOption" with
  | some start_option =>
    match start_option.asStr with
    | some option_str => .ok (.StartOption option_str)
    | none => parse_reset_or_status data
  | none => parse_reset_or_status data

/-- The setVariable branch and the overall fall-through order of
parse_websocket_command. -/
def parse_websocket_command (data : Json) : Except Esp32Error Esp32Command :=
  match data.get "setVariable" with
  | some set_var =>
    match set_var.get "name" with
    | some name =>
      match set_var.get "value" with
      | some value =>
        match name.asStr with
        | some name_str =>
          match value.asU64 with
          | some value_num =>
            .ok (.SetVariable name_str (value_num % 4294967296))
          | none => parse_start_option data
        | none => parse_start_option data
      | none => parse_start_option data
    | none => parse_start_option data
  | none => parse_start_option data

/-! ## esp32_types.rs: Esp32Event -/

/-- Esp32Variable (esp32_types.rs). -/
structure Esp32Variable where
  name : String
  value : Nat
  min : Option Nat
  max : Option Nat
deriving Repr, DecidableEq

/-- Esp32Event (esp32_types.rs). -/
inductive Esp32Event where
  | VariableUpdate (name value : String)
  | StartOptions (options : List String)
  | ChangeableVariables (vars : List Esp32Variable)
  | UdpBroadcast (message from_ip : String) (from_port : Nat)
  | ConnectionStatus (connected : Bool) (device_ip : String) (tcp_port udp_port : Nat)
  | DeviceInfo (device_id : String) (device_name firmware_version : Option String)
      (uptime : Option Nat)
deriving Repr, DecidableEq

/-- Esp32Event::connection_status. -/
def Esp32Event.connection_status (connected : Bool) (device_ip : String)
    (tcp_port udp_port : Nat) : Esp32Event :=
  .ConnectionStatus connected device_ip tcp_port udp_port

/-! ## esp32_connection.rs: session state and send_command -/

/-- The mutable state of one Esp32Connection: whether the tcp_stream Option
holds a stream, the connection_state cell, and the config the session was
created with. -/
structure SessionState where
  config : Esp32DeviceConfig
  tcp_stream : Bool
  connection_state : ConnectionState
deriving Repr, DecidableEq

/-- Esp32Connection::new. -/
def SessionState.mkSession (config : Esp32DeviceConfig) : SessionState :=
  { config := config, tcp_stream := false, connection_state := .Disconnected }

/-- Outcomes of the socket operations send_command can perform, in program
order: write/flush on the existing stream, the transparent reconnect dial,
and write/flush after that reconnect. -/
structure TcpIoOutcome where
  write_ok : Bool
  flush_ok : Bool
  reconnect_ok : Bool
  write2_ok : Bool
  flush2_ok : Bool
deriving Repr, DecidableEq

/-- Esp32Connection::send_command (esp32_connection.rs).  Returns the
call result, the session state afterwards, and the Esp32Events pushed into
the event_sender during the call (a closed sender only logs, so the list is
what reaches the forwarding task when it is open). -/
def SessionState.send_command (st : SessionState) (command : Esp32Command)
    (io : TcpIoOutcome) :
    Except Esp32Error Unit × SessionState × List Esp32Event :=
  let is_reset_command := match command with | .Reset _ => true | _ => false
  if st.tcp_stream then
    if !io.write_ok then
      if is_reset_command then (.ok (), st, [])
      else (.error (.TcpError "write failed"), st, [])
    else if !io.flush_ok then
      if is_reset_command then (.ok (), st, [])
      else (.error (.TcpError "flush failed"), st, [])
    else if is_reset_command then
      (.ok (), { st with tcp_stream := false, connection_state := .Connecting }, [])
    else (.ok (), st, [])
  else
    if !io.reconnect_ok then
      (.error (.ConnectionFailed "Failed to reconnect to ESP32"), st, [])
    else
      let st1 : SessionState :=
        { st with tcp_stream := true, connection_state := .Connected }
      let event := Esp32Event.connection_status true st.config.ip_address
        st.config.tcp_port st.config.udp_port
      if !io.write2_ok then
        (.error (.TcpError "write failed after reconnect"), st1, [event])
      else if !io.flush2_ok then
        (.error (.TcpError "flush failed after reconnect"), st1, [event])
      else if is_reset_command then
        (.ok (), { st1 with tcp_stream := false, connection_state := .Connecting },
          [event])
      else (.ok (), st1, [event])

/-! ## esp32_connection.rs: extract_complete_json -/

/-- Scanner state of extract_complete_json: bracket_count (i32 in the
source, can go negative), in_string and escape_next. -/
structure ScanSt where
  depth : Int
  inStr : Bool
  esc : Bool
deriving Repr, DecidableEq

/-- Initial scanner state. -/
def ScanSt.init : ScanSt := { depth := 0, inStr := false, esc := false }

/-- One character step of the extract_complete_json loop (escape_next
consumed first, then the match on the character). -/
def scanStep (s : ScanSt) (c : Char) : ScanSt :=
  if s.esc then { s with esc := false }
  else if c = '\\' ∧ s.inStr then { s with esc := true }
  else if c = '"' then { s with inStr := !s.inStr }
  else if c = '{' ∧ !s.inStr then { s with depth := s.depth + 1 }
  else if c = '}' ∧ !s.inStr then { s with depth := s.depth - 1 }
  else s

/-- The loop body returns at a character exactly when this holds in the
state before the character: an unescaped top-level closing brace that
brings bracket_count from 1 to 0. -/
def isTrigger (s : ScanSt) (c : Char) : Prop :=
  s.esc = false ∧ s.inStr = false ∧ c = '}' ∧ s.depth = 1

instance (s : ScanSt) (c : Char) : Decidable (isTrigger s c) := by
  unfold isTrigger; infer_instance

/-- The scanning loop of extract_complete_json: acc is the prefix already
consumed; on a trigger the consumed prefix (with the closing brace) and the
untouched remainder are returned. -/
def scanGo : ScanSt → List Char → List Char → Option (List Char × List Char)
  | _, _, [] => none
  | s, acc, c :: rest =>
    if isTrigger s c then some (acc ++ [c], rest)
    else scanGo (scanStep s c) (acc ++ [c]) rest

/-- extract_complete_json (esp32_connection.rs) over the accumulator as a
character list: returns the extracted frame (if any) and the new
accumulator content; on None the accumulator is untouched. -/
def extract_complete_json (buffer : List Char) : Option (List Char) × List Char :=
  let text := buffer.dropWhile Char.isWhitespace
  if text.isEmpty then (none, buffer)
  else
    match scanGo ScanSt.init [] text with
    | some (json_str, rest) => (some json_str, rest)
    | none => (none, buffer)

/-! ## esp32_manager.rs: parse_and_process_message -/

/-- Value::as_array. -/
def Json.asArr : Json → Option (List Json)
  | .arr items => some items
  | _ => none

/-- The startOptions block of parse_and_process_message. -/
def startOptionsEvents (device_id : String) (value : Json) : List DeviceEvent :=
  match value.get "startOptions" with
  | some options_array =>
    match options_array.asArr with
    | some options =>
      let start_options := options.filterMap Json.asStr
      if !start_options.isEmpty then [.Esp32StartOptions device_id start_options]
      else []
    | none => []
  | none => []

/-- One entry of the changeableVariables block: name/value required as
string/u64, min and max attached when they parse as u64. -/
def changeableVarJson (var : Json) : Option Json :=
  match var.get "name", var.get "value" with
  | some name, some value =>
    match name.asStr, value.asU64 with
    | some name_str, some value_num =>
      let base := [("name", Json.str name_str), ("value", Json.num value_num)]
      let with_min :=
        match (var.get "min").bind Json.asU64 with
        | some min_val => base ++ [("min", Json.num min_val)]
        | none => base
      let with_max :=
        match (var.get "max").bind Json.asU64 with
        | some max_val => with_min ++ [("max", Json.num max_val)]
        | none => with_min
      some (Json.obj with_max)
    | _, _ => none
  | _, _ => none

/-- The changeableVariables block of parse_and_process_message. -/
def changeableVariablesEvents (device_id : String) (value : Json) : List DeviceEvent :=
  match value.get "changeableVariables" with
  | some vars_array =>
    match vars_array.asArr with
    | some vars =>
      let collected := vars.filterMap changeableVarJson
      if !collected.isEmpty then [.Esp32ChangeableVariables device_id collected]
      else []
    | none => []
  | none => []

/-- The deviceName block of parse_and_process_message (uptime is truncated
`as u32` before being widened back). -/
def deviceInfoEvents (device_id : String) (value : Json) : List DeviceEvent :=
  match (value.get "deviceName").bind Json.asStr with
  | some device_name =>
    let firmware_version := ((value.get "firmwareVersion").bind Json.asStr).getD "unknown"
    let uptime := (((value.get "uptime").bind Json.asU64).getD 0) % 4294967296
    [.Esp32DeviceInfo device_id (some device_name) (some firmware_version) (some uptime)]
  | none => []

/-- skip_fields of the legacy single-variable block. -/
def isSkipField (key : String) : Bool :=
  key = "device_id" || key = "startOptions" || key = "changeableVariables" ||
  key = "deviceName" || key = "firmwareVersion" || key = "uptime" || key = "status"

/-- String rendering of a primitive JSON value (as_str / as_u64 / as_i64
chain; float payloads are outside the model). -/
def primValueStr : Json → Option String
  | .str s => some s
  | .num n => if 0 ≤ n then some (toString n.toNat) else some (toString n)
  | _ => none

/-- The legacy single-variable-with-range block of
parse_and_process_message. -/
def singleVarEvents (device_id : String) (value : Json) : List DeviceEvent :=
  match value with
  | .obj fields =>
    let has_min := (Json.get (.obj fields) "min").isSome
    let has_max := (Json.get (.obj fields) "max").isSome
    if has_min || has_max then
      fields.filterMap (fun kv =>
        if kv.1 ≠ "min" ∧ kv.1 ≠ "max" ∧ !(isSkipField kv.1) then
          match primValueStr kv.2 with
          | some value_str =>
            let min_val := (Json.get (.obj fields) "min").bind Json.asU64
            let max_val := (Json.get (.obj fields) "max").bind Json.asU64
            some (.Esp32VariableUpdate device_id kv.1 value_str min_val max_val)
          | none => none
        else none)
    else []
  | _ => []

/-- Split at the first double quote (the greedy [^"]+ capture). -/
def spanNonQuote (cs : List Char) : List Char × List Char :=
  (cs.takeWhile (fun c => c ≠ '"'), cs.dropWhile (fun c => c ≠ '"'))

/-- One attempted match of the string-variable regex at the head of the
input: an opening brace, a quoted nonempty name, optional whitespace, a
colon, optional whitespace, a quoted nonempty value, a closing brace. -/
def matchKV1 : List Char → Option ((String × String) × List Char)
  | '{' :: '"' :: rest =>
    let parts := spanNonQuote rest
    if parts.1.isEmpty then none
    else
      match parts.2 with
      | '"' :: r2 =>
        match r2.dropWhile Char.isWhitespace with
        | ':' :: r4 =>
          match r4.dropWhile Char.isWhitespace with
          | '"' :: r6 =>
            let vparts := spanNonQuote r6
            if vparts.1.isEmpty then none
            else
              match vparts.2 with
              | '"' :: '}' :: r8 =>
                some ((String.mk parts.1, String.mk vparts.1), r8)
              | _ => none
          | _ => none
        | _ => none
      | _ => none
  | _ => none

/-- One attempted match of the numeric-variable regex at the head of the
input: quoted nonempty name, colon, a nonempty digit run, closing brace. -/
def matchKV2 : List Char → Option ((String × String) × List Char)
  | '{' :: '"' :: rest =>
    let parts := spanNonQuote rest
    if parts.1.isEmpty then none
    else
      match parts.2 with
      | '"' :: r2 =>
        match r2.dropWhile Char.isWhitespace with
        | ':' :: r4 =>
          let r5 := r4.dropWhile Char.isWhitespace
          let digits := r5.takeWhile Char.isDigit
          if digits.isEmpty then none
          else
            match r5.dropWhile Char.isDigit with
            | '}' :: r7 => some ((String.mk parts.1, String.mk digits), r7)
            | _ => none
        | _ => none
      | _ => none
  | _ => none

/-- captures_iter: leftmost matches, scanning resumes after each match.
Each recursion step consumes at least one character, so fuel equal to the
input length is never exhausted. -/
def regexCapturesGo (matchFn : List Char → Option ((String × String) × List Char)) :
    Nat → List Char → List (String × String)
  | 0, _ => []
  | _, [] => []
  | fuel + 1, c :: rest =>
    match matchFn (c :: rest) with
    | some (cap, remainder) => cap :: regexCapturesGo matchFn fuel remainder
    | none => regexCapturesGo matchFn fuel rest

/-- All matches of one of the two fallback regexes over a message. -/
def regexCaptures (matchFn : List Char → Option ((String × String) × List Char))
    (cs : List Char) : List (String × String) :=
  regexCapturesGo matchFn cs.length cs

/-- The string-variable regex pass of parse_and_process_message. -/
def regexStringVarEvents (device_id message : String) : List DeviceEvent :=
  (regexCaptures matchKV1 message.data).filterMap (fun cap =>
    let name_str := cap.1.trim
    if name_str ≠ "deviceName" ∧ name_str ≠ "firmwareVersion" ∧
        name_str ≠ "name" ∧ name_str ≠ "value" then
      some (.Esp32VariableUpdate device_id name_str cap.2.trim none none)
    else none)

/-- The numeric-variable regex pass of parse_and_process_message. -/
def regexNumericVarEvents (device_id message : String) : List DeviceEvent :=
  (regexCaptures matchKV2 message.data).filterMap (fun cap =>
    let name_str := cap.1.trim
    if name_str ≠ "uptime" ∧ name_str ≠ "value" then
      some (.Esp32VariableUpdate device_id name_str cap.2.trim none none)
    else none)

/-- Esp32Manager::parse_and_process_message (esp32_manager.rs): the events
it hands to DeviceEventStore::add_event, in order.  `parsed` is the result
of the serde_json parse of the message (the JSON-parsing collaborator). -/
def parse_and_process_message (device_id message : String) (parsed : Option Json) :
    List DeviceEvent :=
  let json_events :=
    match parsed with
    | some value =>
      startOptionsEvents device_id value ++ changeableVariablesEvents device_id value ++
      deviceInfoEvents device_id value ++ singleVarEvents device_id value
    | none => []
  json_events ++ regexStringVarEvents device_id message ++
    regexNumericVarEvents device_id message

/-! ## esp32_manager.rs: manager state and operations -/

/-- DeviceConnectionType (esp32_manager.rs). -/
inductive DeviceConnectionType where
  | Uart
  | TcpUdp
deriving Repr, DecidableEq

/-- MessageSource (esp32_manager.rs). -/
inductive MessageSource where
  | Uart
  | Tcp (ip : String) (port : Nat)
  | Udp (ip : String) (port : Nat)
deriving Repr, DecidableEq

/-- The shared mutable maps owned by Esp32Manager.  Instants are modelled
as Nat seconds on a monotone clock. -/
structure Esp32ManagerState where
  device_configs : List (String × Esp32DeviceConfig)
  sessions : List (String × SessionState)
  ip_to_device_id : List (String × String)
  unified_activity_tracker : List (String × Nat)
  unified_connection_states : List (String × Bool)
  device_connection_types : List (String × DeviceConnectionType)
deriving Repr

/-- Esp32Manager::new. -/
def Esp32ManagerState.empty : Esp32ManagerState :=
  { device_configs := [], sessions := [], ip_to_device_id := [],
    unified_activity_tracker := [], unified_connection_states := [],
    device_connection_types := [] }

/-- The conversion performed by Esp32Manager::handle_esp32_event before the
event reaches DeviceEventStore::add_event. -/
def handle_esp32_event_convert (device_id : String) : Esp32Event → DeviceEvent
  | .VariableUpdate name value => .Esp32VariableUpdate device_id name value none none
  | .StartOptions options => .Esp32StartOptions device_id options
  | .ChangeableVariables vars =>
    .Esp32ChangeableVariables device_id
      (vars.map (fun v => Json.obj [("name", .str v.name), ("value", .num v.value)]))
  | .UdpBroadcast message from_ip from_port =>
    .Esp32UdpBroadcast device_id message from_ip from_port
  | .ConnectionStatus connected device_ip tcp_port udp_port =>
    .Esp32ConnectionStatus device_id connected device_ip tcp_port udp_port
  | .DeviceInfo _ device_name firmware_version uptime =>
    .Esp32DeviceInfo device_id device_name firmware_version uptime

/-- Esp32Manager::handle_message_unified.  Returns the updated shared maps
together with the DeviceEvents handed to add_event, in program order.
has_activity_tracker / has_conn_types model the two Option arguments
(TCP bypass passes None for the tracker). -/
def handle_message_unified (message : String) (parsed : Option Json)
    (device_id : String) (source : MessageSource) (now : Nat)
    (has_activity_tracker has_conn_types : Bool) (st : Esp32ManagerState) :
    Esp32ManagerState × List DeviceEvent :=
  let device_type :=
    match source with
    | .Uart => DeviceConnectionType.Uart
    | _ => DeviceConnectionType.TcpUdp
  let types1 :=
    if has_conn_types && !(alContains st.device_connection_types device_id) then
      alInsert st.device_connection_types device_id device_type
    else st.device_connection_types
  let should_track_activity :=
    match source with
    | .Uart => true
    | .Udp _ _ => true
    | .Tcp _ _ => false
  let tracker1 :=
    if should_track_activity && has_activity_tracker then
      alInsert st.unified_activity_tracker device_id now
    else st.unified_activity_tracker
  let was_connected := (alLookup st.unified_connection_states device_id).getD false
  let should_send_connected_event := !was_connected
  let states1 :=
    if should_send_connected_event then
      alInsert st.unified_connection_states device_id true
    else st.unified_connection_states
  let connection_events :=
    if should_send_connected_event then
      let coords :=
        match source with
        | .Uart => ("0.0.0.0", 0, 0)
        | .Tcp ip port => (ip, port, 0)
        | .Udp ip port => (ip, 0, port)
      [DeviceEvent.esp32_connection_status device_id true coords.1 coords.2.1 coords.2.2]
    else []
  let bcoords :=
    match source with
    | .Uart => ("0.0.0.0", 0)
    | .Tcp ip port => (ip, port)
    | .Udp ip port => (ip, port)
  let broadcast := DeviceEvent.esp32_udp_broadcast device_id message bcoords.1 bcoords.2
  let parsed_events := parse_and_process_message device_id message parsed
  let st1 :=
    { st with
      device_connection_types := types1
      unified_activity_tracker := tracker1
      unified_connection_states := states1 }
  (st1, connection_events ++ [broadcast] ++ parsed_events)

/-- Esp32Manager::add_device. -/
def Esp32ManagerState.add_device (st : Esp32ManagerState)
    (config : Esp32DeviceConfig) : Esp32ManagerState :=
  let device_id := config.device_id
  if alContains st.sessions device_id then
    { st with device_configs := alInsert st.device_configs device_id config }
  else
    { st with
      device_configs := alInsert st.device_configs device_id config,
      device_connection_types :=
        alInsert st.device_connection_types device_id .TcpUdp,
      sessions := alInsert st.sessions device_id (SessionState.mkSession config) }

/-- The tail of Esp32Manager::connect_device after the recreation check:
Esp32Connection::connect (state to Connecting, dial, on success Connected
plus a session-level connection event when the sender is open), then UDP
routing registration, activity/connection bookkeeping and the manager-level
workaround connection event. -/
def connectProceed (st : Esp32ManagerState) (device_id : String)
    (sess : SessionState) (dial_ok sender_open : Bool) (now : Nat) :
    Except Esp32Error Unit × Esp32ManagerState × List DeviceEvent :=
  if !dial_ok then
    let sess1 := { sess with connection_state := .Connecting }
    (.error (.ConnectionFailed "TCP connection failed"),
      { st with sessions := alInsert st.sessions device_id sess1 }, [])
  else
    let sess1 := { sess with tcp_stream := true, connection_state := .Connected }
    let session_events :=
      if sender_open then
        [Esp32Event.connection_status true sess.config.ip_address
          sess.config.tcp_port sess.config.udp_port]
      else []
    let st1 := { st with sessions := alInsert st.sessions device_id sess1 }
    match alLookup st1.device_configs device_id with
    | some config =>
      let st2 :=
        { st1 with
          ip_to_device_id := alInsert st1.ip_to_device_id config.ip_address device_id,
          unified_activity_tracker :=
            alInsert st1.unified_activity_tracker device_id now,
          unified_connection_states :=
            alInsert st1.unified_connection_states device_id true }
      let workaround := DeviceEvent.esp32_connection_status device_id true
        config.ip_address config.tcp_port config.udp_port
      (.ok (), st2,
        session_events.map (handle_esp32_event_convert device_id) ++ [workaround])
    | none =>
      (.ok (), st1, session_events.map (handle_esp32_event_convert device_id))

/-- Esp32Manager::connect_device (esp32_manager.rs).  dial_ok is the TCP
dial outcome, sender_open whether the session event channel still has its
receiver; the event list is what reaches add_event (session events travel
through the direct forwarding task, the workaround event is stored
synchronously; no theorem below depends on their relative order). -/
def Esp32ManagerState.connect_device (st : Esp32ManagerState) (device_id : String)
    (dial_ok sender_open : Bool) (now : Nat) :
    Except Esp32Error Unit × Esp32ManagerState × List DeviceEvent :=
  match alLookup st.sessions device_id with
  | some sess =>
    match sess.connection_state with
    | .Connected => (.ok (), st, [])
    | .Connecting => connectProceed st device_id sess dial_ok sender_open now
    | _ =>
      match alLookup st.device_configs device_id with
      | none => (.error (.DeviceNotFound device_id), st, [])
      | some config =>
        let fresh := SessionState.mkSession config
        let st1 := { st with sessions := alInsert st.sessions device_id fresh }
        connectProceed st1 device_id fresh dial_ok sender_open now
  | none => (.error (.DeviceNotFound device_id), st, [])

/-- The auto-registration sweep of the unified timeout monitor: tracked
devices missing from configs are inserted with the default UART config. -/
def monitorAutoRegister (tracked : List String)
    (configs : List (String × Esp32DeviceConfig)) :
    List (String × Esp32DeviceConfig) :=
  tracked.foldl
    (fun cfgs id =>
      if alContains cfgs id then cfgs
      else alInsert cfgs id (Esp32DeviceConfig.new_uart id))
    configs

/-- One device of the timeout sweep: accumulator carries the tracker, the
connection states and the emitted events, mutated in iteration order
exactly as the source loop does. -/
def monitorCheckDevice (now : Nat)
    (acc : List (String × Nat) × List (String × Bool) × List DeviceEvent)
    (entry : String × Esp32DeviceConfig) :
    List (String × Nat) × List (String × Bool) × List DeviceEvent :=
  let device_id := entry.1
  let config := entry.2
  match alLookup acc.1 device_id with
  | none => acc
  | some last_activity =>
    let elapsed := now - last_activity
    if elapsed > config.udp_timeout_seconds then
      let was_connected := (alLookup acc.2.1 device_id).getD false
      let states1 :=
        if was_connected then alInsert acc.2.1 device_id false else acc.2.1
      let events1 :=
        if was_connected then
          acc.2.2 ++ [DeviceEvent.esp32_connection_status device_id false
            config.ip_address config.tcp_port config.udp_port]
        else acc.2.2
      (alRemove acc.1 device_id, states1, events1)
    else acc

/-- One 5-second tick of Esp32Manager::start_unified_timeout_monitor:
auto-register tracked UART devices, then sweep every config for timeout.
Returns the updated manager state and the disconnect events handed to
add_event. -/
def unified_timeout_monitor_tick (st : Esp32ManagerState) (now : Nat) :
    Esp32ManagerState × List DeviceEvent :=
  let tracked_devices := st.unified_activity_tracker.map (fun p => p.1)
  let configs1 := monitorAutoRegister tracked_devices st.device_configs
  let swept := configs1.foldl (monitorCheckDevice now)
    (st.unified_activity_tracker, st.unified_connection_states, [])
  let st1 :=
    { st with
      device_configs := configs1
      unified_activity_tracker := swept.1
      unified_connection_states := swept.2.1 }
  (st1, swept.2.2)

/-! ## esp32_discovery.rs: the mDNS resolution callback -/

/-- MdnsEsp32Device (mdns_discovery.rs), the fields the callback reads. -/
structure MdnsEsp32Device where
  hostname : String
  port : Nat
  ip_addresses : List String
  txt_records : List (String × String)
deriving Repr

/-- mac.replace with dash separators. -/
def macToKey (mac : String) : String :=
  String.map (fun c => if c = ':' then '-' else c) mac

/-- hostname.replace(".local", "").trim_end_matches dot. -/
def cleanHostname (hostname : String) : String :=
  (hostname.replace ".local" "").dropRightWhile (fun c => c = '.')

/-- Result of one discovery-callback run. -/
structure DiscoveryResult where
  store : DeviceEventStore
  deliveries : List (String × ServerMessage)
  discovery_event : DeviceEvent
  manager : Option Esp32ManagerState
  discovered : List (String × Esp32DeviceConfig)
deriving Repr

/-- The mDNS resolution callback of Esp32Discovery::start_discovery
(esp32_discovery.rs): stores the device in the discovered map, broadcasts
an Esp32DeviceDiscovered on the reserved "system" id via broadcast_event
(the store's histories are not written), and adds the device to the
manager.  discovered_at stands for the clock string. -/
def discovery_callback (mdns : MdnsEsp32Device)
    (discovered : List (String × Esp32DeviceConfig)) (store : DeviceEventStore)
    (manager : Option Esp32ManagerState) (discovered_at : String) :
    DiscoveryResult :=
  let device_id :=
    match alLookup mdns.txt_records "mac" with
    | some mac => macToKey mac
    | none => "esp32-" ++ cleanHostname mdns.hostname
  let ip := mdns.ip_addresses.headD "192.168.1.100"
  let device_config := Esp32DeviceConfig.new device_id ip 3232 3232
  let discovered1 := alInsert discovered device_id device_config
  let mac_address := alLookup mdns.txt_records "mac"
  let mdns_hostname := some (cleanHostname mdns.hostname)
  let chosen :=
    match mac_address with
    | some mac =>
      (mac, Esp32DeviceConfig.new_udp mac device_config.ip_address
        device_config.udp_port)
    | none => (device_id, device_config)
  let discovery_event := DeviceEvent.esp32_device_discovered chosen.1
    device_config.ip_address device_config.tcp_port device_config.udp_port
    discovered_at mac_address mdns_hostname
  let deliveries := store.broadcast_event "system" discovery_event "system"
  let manager1 := manager.map (fun m => m.add_device chosen.2)
  { store := store, deliveries := deliveries, discovery_event := discovery_event,
    manager := manager1, discovered := discovered1 }

/-! ## websocket.rs: replay delivery and the client event loop -/

/-- The replay delivery of handle_register_for_device (websocket.rs,
lines 551-577): one device_events batch with every replayed event, or an
empty confirmation batch, sent on the registering client's own channel
with no subscription filtering. -/
def replay_message (device_id : String) (existing_events : List DeviceEvent) :
    ServerMessage :=
  if !existing_events.isEmpty then ServerMessage.device_events device_id existing_events
  else ServerMessage.device_events device_id []

/-- Registration as the websocket layer performs it: register in the store,
then send the unfiltered replay batch to the attaching client. -/
def handle_register_replay (st : DeviceEventStore)
    (device_id user_id display_name client_id : String)
    (subscription_type : SubscriptionType) : DeviceEventStore × ServerMessage :=
  let res := st.register_client device_id user_id display_name client_id
    subscription_type
  (res.store, replay_message device_id res.replay)

/-- The event loop of handle_device_events (websocket.rs): Esp32Command
events are routed to the command path, every other event goes through
DeviceEventStore::add_event; the first add_event error aborts the loop.
fresh_ids and now stand for the uuid and clock effects. -/
def handle_device_events_store (st : DeviceEventStore) (device_id : String)
    (events : List DeviceEvent) (user_id client_id : String)
    (fresh_ids : List String) (now : Int) : Except String DeviceEventStore :=
  match events with
  | [] => .ok st
  | e :: rest =>
    match e with
    | .Esp32Command _ _ =>
      handle_device_events_store st device_id rest user_id client_id fresh_ids now
    | _ =>
      match st.add_event device_id e user_id client_id (fresh_ids.headD "") now with
      | .ok res =>
        handle_device_events_store res.1 device_id rest user_id client_id
          fresh_ids.tail now
      | .error err => .error err

/-! ## Derived definitions used by the verification statements -/

/-- One device's stored history. -/
def eventsAt (st : DeviceEventStore) (device_id : String) : List EventWithMetadata :=
  (alLookup st.device_events device_id).getD []

/-- One add_event request (uuid and clock effects included). -/
structure AddReq where
  device_id : String
  event : DeviceEvent
  user_id : String
  client_id : String
  fresh_id : String
  now : Int

/-- A sequence of add_event calls; a rejected event leaves the store
unchanged and the sequence continues, as every call site does. -/
def runAddEvents (st : DeviceEventStore) : List AddReq → DeviceEventStore
  | [] => st
  | r :: rest =>
    match st.add_event r.device_id r.event r.user_id r.client_id r.fresh_id r.now with
    | .ok res => runAddEvents res.1 rest
    | .error _ => runAddEvents st rest

/-- Presence events: UserJoined or UserLeft. -/
def DeviceEvent.isPresence : DeviceEvent → Bool
  | .UserJoined _ _ _ => true
  | .UserLeft _ _ _ => true
  | _ => false

/-- Connected=true connection-status events. -/
def DeviceEvent.isConnectedTrue : DeviceEvent → Bool
  | .Esp32ConnectionStatus _ connected _ _ _ => connected
  | _ => false

/-- Disconnect events (connected=false) for one device. -/
def DeviceEvent.isDisconnectFor (d : String) : DeviceEvent → Bool
  | .Esp32ConnectionStatus device_id connected _ _ _ => !connected && device_id = d
  | _ => false

/-- Number of disconnect events for one device in an emission list. -/
def disconnectCountFor (d : String) (evs : List DeviceEvent) : Nat :=
  (evs.filter (fun e => e.isDisconnectFor d)).length

/-- Scanner fold from an arbitrary start state. -/
def scanFoldFrom (s : ScanSt) (cs : List Char) : ScanSt := cs.foldl scanStep s

/-- The scanner ends the given chunk on a balanced top-level closing brace:
the chunk is some q followed by one character that triggers from the state
reached after q. -/
def triggerEnd (s : ScanSt) (p : List Char) : Prop :=
  ∃ q c, p = q ++ [c] ∧ isTrigger (scanFoldFrom s q) c

/-- Modelled from the spec: a balanced top-level JSON object chunk,
"taking into account string literals and backslash escapes" — the
string-and-escape-aware brace depth returns to zero at the end of the
chunk after having been positive somewhere inside it. -/
def completeFrame (p : List Char) : Prop :=
  p ≠ [] ∧ (scanFoldFrom ScanSt.init p).depth = 0 ∧
    ∃ q t, q ++ t = p ∧ 0 < (scanFoldFrom ScanSt.init q).depth

/-- The glued test input of the spec: two JSON objects, the first with an
escaped-context closing brace inside a string literal. -/
def gluedInput : List Char :=
  ['{', '"', 'a', '"', ':', '"', '}', '"', '}', '{', '"', 'b', '"', ':', '1', '}']

/-- First expected frame of the glued test input. -/
def frameA : List Char := ['{', '"', 'a', '"', ':', '"', '}', '"', '}']

/-- Second expected frame of the glued test input. -/
def frameB : List Char := ['{', '"', 'b', '"', ':', '1', '}']

/-- Concrete device config used in the connection-status scenarios. -/
def demoConfig : Esp32DeviceConfig := Esp32DeviceConfig.new "d" "1.2.3.4" 3232 3232

/-- Manager state reached by adding the demo device and then receiving one
UDP datagram from it: the unified connection flag for "d" is already true. -/
def c2StateAfterIngress : Esp32ManagerState :=
  (handle_message_unified "x" none "d" (.Udp "1.2.3.4" 3232) 0 true true
    (Esp32ManagerState.empty.add_device demoConfig)).1

/-! ## Association-list lemmas -/

theorem alLookup_nil {α : Type} (k : String) : alLookup ([] : List (String × α)) k = none := rfl

theorem alLookup_cons {α : Type} (k0 : String) (v0 : α) (rest : List (String × α))
    (k : String) :
    alLookup ((k0, v0) :: rest) k = if k0 = k then some v0 else alLookup rest k := by
  by_cases h : k0 = k
  · simp [alLookup, List.find?_cons_of_pos, h]
  · simp only [alLookup, h, if_false]
    rw [List.find?_cons_of_neg]
    simp [h]

theorem alLookup_alInsert_self {α : Type} (m : List (String × α)) (k : String) (v : α) :
    alLookup (alInsert m k v) k = some v := by
  induction m with
  | nil => simp [alInsert, alLookup_cons]
  | cons p rest ih =>
    obtain ⟨k0, v0⟩ := p
    by_cases h : k0 = k
    · simp [alInsert, h, alLookup_cons]
    · simp [alInsert, h, alLookup_cons, ih]

theorem alLookup_alInsert_ne {α : Type} (m : List (String × α)) (k k' : String) (v : α)
    (h : k' ≠ k) : alLookup (alInsert m k v) k' = alLookup m k' := by
  have hne : ¬ (k = k') := fun he => h he.symm
  induction m with
  | nil =>
    show alLookup [(k, v)] k' = alLookup [] k'
    rw [alLookup_cons, if_neg hne]
  | cons p rest ih =>
    obtain ⟨k0, v0⟩ := p
    by_cases hk : k0 = k
    · subst hk
      simp [alInsert, alLookup_cons, hne]
    · by_cases h2 : k0 = k'
      · simp [alInsert, hk, alLookup_cons, h2, hne, h]
      · simp [alInsert, hk, alLookup_cons, h2, ih]

theorem alLookup_alRemove_self {α : Type} (m : List (String × α)) (k : String) :
    alLookup (alRemove m k) k = none := by
  induction m with
  | nil => rfl
  | cons p rest ih =>
    obtain ⟨k0, v0⟩ := p
    by_cases h : k0 = k
    · simpa [alRemove, List.filter_cons, h] using ih
    · simpa [alRemove, List.filter_cons, h, alLookup_cons] using ih

theorem alLookup_alRemove_ne {α : Type} (m : List (String × α)) (k k' : String)
    (h : k' ≠ k) : alLookup (alRemove m k) k' = alLookup m k' := by
  induction m with
  | nil => rfl
  | cons p rest ih =>
    obtain ⟨k0, v0⟩ := p
    by_cases hk : k0 = k
    · have hne : ¬ (k = k') := fun he => h he.symm
      simpa [alRemove, List.filter_cons, hk, alLookup_cons, hne] using ih
    · by_cases h2 : k0 = k'
      · have hne2 : ¬ (k' = k) := h
        simp [alRemove, List.filter_cons, hk, alLookup_cons, h2, hne2]
      · simpa [alRemove, List.filter_cons, hk, alLookup_cons, h2] using ih

theorem alLookup_mem {α : Type} (m : List (String × α)) (k : String) (v : α)
    (h : alLookup m k = some v) : (k, v) ∈ m := by
  induction m with
  | nil => simp [alLookup] at h
  | cons p rest ih =>
    obtain ⟨k0, v0⟩ := p
    rw [alLookup_cons] at h
    by_cases hk : k0 = k
    · subst hk
      rw [if_pos rfl] at h
      simp only [Option.some.injEq] at h
      subst h
      exact List.mem_cons_self _ _
    · rw [if_neg hk] at h
      exact List.mem_cons_of_mem _ (ih h)

/-! ## C1 support: raw-broadcast counting -/

theorem rawCount_append (a b : List EventWithMetadata) :
    rawCount (a ++ b) = rawCount a + rawCount b := by
  simp [rawCount, List.filter_append]

theorem rawCount_removeFirstRaw (l : List EventWithMetadata) (h : 0 < rawCount l) :
    rawCount (removeFirstRaw l) + 1 = rawCount l := by
  induction l with
  | nil => simp [rawCount] at h
  | cons e rest ih =>
    by_cases he : e.event.isUdpBroadcast
    · simp [removeFirstRaw, he, rawCount, List.filter_cons]
    · simp only [rawCount, List.filter_cons, he, Bool.false_eq_true, if_false] at h ⊢
      simp only [removeFirstRaw, he, Bool.false_eq_true, if_false]
      simp only [rawCount] at ih
      simp [List.filter_cons, he, ih h]

theorem filter_nonraw_removeFirstRaw (l : List EventWithMetadata) :
    (removeFirstRaw l).filter (fun e => !e.event.isUdpBroadcast) =
      l.filter (fun e => !e.event.isUdpBroadcast) := by
  induction l with
  | nil => rfl
  | cons e rest ih =>
    by_cases he : e.event.isUdpBroadcast
    · simp [removeFirstRaw, he, List.filter_cons]
    · simp [removeFirstRaw, he, List.filter_cons, ih]

/-- Shape of a successful add_event: the target history is pruned exactly
when the event is a RawBroadcast and the cap is positive and reached;
connections and cap are untouched. -/
theorem add_event_ok_elim (st : DeviceEventStore) (dev : String) (ev : DeviceEvent)
    (uid cid fid : String) (now : Int) (st2 : DeviceEventStore)
    (dels : List (String × ServerMessage))
    (h : st.add_event dev ev uid cid fid now = .ok (st2, dels)) :
    st2.device_events = alInsert st.device_events dev
      ((if ev.isUdpBroadcast ∧ st.max_debug_messages_per_device > 0 then
          if rawCount (eventsAt st dev) ≥ st.max_debug_messages_per_device then
            removeFirstRaw (eventsAt st dev)
          else eventsAt st dev
        else eventsAt st dev) ++ [⟨ev, fid, now, uid, none⟩]) ∧
    st2.active_connections = st.active_connections ∧
    st2.max_debug_messages_per_device = st.max_debug_messages_per_device := by
  unfold DeviceEventStore.add_event at h
  cases hv : ev.validate with
  | error e => rw [hv] at h; exact absurd h (by simp)
  | ok u =>
    rw [hv] at h
    simp only [Except.ok.injEq, Prod.mk.injEq] at h
    obtain ⟨h1, _⟩ := h
    subst h1
    by_cases hd : ev.isUdpBroadcast
    · simp [hd, eventsAt]
    · simp [hd, eventsAt]

/-- On a validation failure add_event reports the error and the store is
not touched (the caller keeps using the old store). -/
theorem add_event_error_no_change (st : DeviceEventStore) (dev : String)
    (ev : DeviceEvent) (uid cid fid : String) (now : Int) (e : String)
    (h : ev.validate = .error e) :
    st.add_event dev ev uid cid fid now = .error ("Invalid event: " ++ e) := by
  unfold DeviceEventStore.add_event
  rw [h]

/-- Step preservation for the cap invariant. -/
theorem add_event_cap_step (C : Nat) (st : DeviceEventStore) (dev : String)
    (ev : DeviceEvent) (uid cid fid : String) (now : Int) (st2 : DeviceEventStore)
    (dels : List (String × ServerMessage)) (hC : 0 < C)
    (hm : st.max_debug_messages_per_device = C)
    (h : st.add_event dev ev uid cid fid now = .ok (st2, dels))
    (hinv : ∀ d, rawCount (eventsAt st d) ≤ C) :
    st2.max_debug_messages_per_device = C ∧ ∀ d, rawCount (eventsAt st2 d) ≤ C := by
  obtain ⟨hev, _, hmax⟩ := add_event_ok_elim st dev ev uid cid fid now st2 dels h
  refine ⟨hmax.trans hm, fun d => ?_⟩
  by_cases hd : d = dev
  · subst hd
    rw [eventsAt, hev, alLookup_alInsert_self, Option.getD_some, rawCount_append]
    by_cases hraw : ev.isUdpBroadcast
    · have hcond : ev.isUdpBroadcast ∧ st.max_debug_messages_per_device > 0 := by
        constructor
        · exact hraw
        · omega
      rw [if_pos hcond]
      by_cases hfull : rawCount (eventsAt st d) ≥ st.max_debug_messages_per_device
      · rw [if_pos hfull]
        have hpos : 0 < rawCount (eventsAt st d) := by omega
        have := rawCount_removeFirstRaw (eventsAt st d) hpos
        have hle := hinv d
        simp [rawCount, List.filter_cons, hraw] at *
        omega
      · rw [if_neg hfull]
        have hle := hinv d
        simp only [rawCount, List.filter_cons, hraw, if_pos, List.length_cons,
          List.filter_nil, List.length_nil] at *
        omega
    · have hcond : ¬ (ev.isUdpBroadcast ∧ st.max_debug_messages_per_device > 0) := by
        intro hx
        exact hraw hx.1
      rw [if_neg hcond]
      have hle := hinv d
      simp only [rawCount, List.filter_cons, hraw, Bool.false_eq_true, if_false,
        List.filter_nil, List.length_append, List.length_nil] at *
      omega
  · rw [eventsAt, hev, alLookup_alInsert_ne _ _ _ _ hd]
    exact hinv d

/-- Cap invariant over any add_event sequence. -/
theorem runAddEvents_cap (C : Nat) (hC : 0 < C) (reqs : List AddReq)
    (st : DeviceEventStore) (hm : st.max_debug_messages_per_device = C)
    (hinv : ∀ d, rawCount (eventsAt st d) ≤ C) :
    ∀ d, rawCount (eventsAt (runAddEvents st reqs) d) ≤ C := by
  induction reqs generalizing st with
  | nil => exact hinv
  | cons r rest ih =>
    unfold runAddEvents
    cases h : st.add_event r.device_id r.event r.user_id r.client_id r.fresh_id r.now with
    | ok res =>
      obtain ⟨hm2, hinv2⟩ := add_event_cap_step C st r.device_id r.event r.user_id
        r.client_id r.fresh_id r.now res.1 res.2 hC hm (by rw [h]) hinv
      exact ih res.1 hm2 hinv2
    | error e => exact ih st hm hinv

/-- C1: for a fixed configured cap C > 0, (1) after any sequence of
add_event calls every device retains at most C RawBroadcast events;
(2) an accepted RawBroadcast arriving при a raw count already at or above C
first evicts the oldest retained RawBroadcast and then appends the new one;
(3) events of every other kind are retained unconditionally: the non-raw
subsequence of the history is never shrunk by add_event. -/
theorem c1_raw_broadcast_cap (C : Nat) (hC : 0 < C) :
    (∀ (reqs : List AddReq) (dev : String),
        rawCount (eventsAt (runAddEvents (DeviceEventStore.mkStore C) reqs) dev) ≤ C)
    ∧ (∀ (st : DeviceEventStore) (dev : String) (ev : DeviceEvent)
        (uid cid fid : String) (now : Int) (st2 : DeviceEventStore)
        (dels : List (String × ServerMessage)),
        st.max_debug_messages_per_device = C →
        st.add_event dev ev uid cid fid now = .ok (st2, dels) →
        (ev.isUdpBroadcast = true → C ≤ rawCount (eventsAt st dev) →
            eventsAt st2 dev =
              removeFirstRaw (eventsAt st dev) ++ [⟨ev, fid, now, uid, none⟩])
          ∧ (eventsAt st2 dev).filter (fun e => !e.event.isUdpBroadcast) =
              (eventsAt st dev).filter (fun e => !e.event.isUdpBroadcast) ++
                (if ev.isUdpBroadcast then [] else [⟨ev, fid, now, uid, none⟩])) := by
  constructor
  · intro reqs dev
    refine runAddEvents_cap C hC reqs _ rfl (fun d => ?_) dev
    simp [eventsAt, DeviceEventStore.mkStore, alLookup, rawCount]
  · intro st dev ev uid cid fid now st2 dels hm h
    obtain ⟨hev, _, _⟩ := add_event_ok_elim st dev ev uid cid fid now st2 dels h
    constructor
    · intro hraw hge
      rw [eventsAt, hev, alLookup_alInsert_self, Option.getD_some]
      rw [if_pos ⟨hraw, by omega⟩, if_pos (by omega)]
    · rw [eventsAt, hev, alLookup_alInsert_self, Option.getD_some, List.filter_append]
      by_cases hraw : ev.isUdpBroadcast = true
      · have hone : ([(⟨ev, fid, now, uid, none⟩ : EventWithMetadata)]).filter
            (fun e => !e.event.isUdpBroadcast) = [] := by
          simp [hraw]
        rw [hone]
        by_cases hcond : ev.isUdpBroadcast = true ∧ st.max_debug_messages_per_device > 0
        · rw [if_pos hcond]
          by_cases hge : rawCount (eventsAt st dev) ≥ st.max_debug_messages_per_device
          · rw [if_pos hge, filter_nonraw_removeFirstRaw]
            simp [hraw]
          · rw [if_neg hge]
            simp [hraw]
        · rw [if_neg hcond]
          simp [hraw]
      · have hone : ([(⟨ev, fid, now, uid, none⟩ : EventWithMetadata)]).filter
            (fun e => !e.event.isUdpBroadcast) = [⟨ev, fid, now, uid, none⟩] := by
          simp [hraw]
        rw [hone]
        have hcond : ¬ (ev.isUdpBroadcast ∧ st.max_debug_messages_per_device > 0) :=
          fun hx => hraw hx.1
        rw [if_neg hcond]
        simp [hraw]

/-- Concrete RawBroadcast requests for the C1 witness. -/
def c1Req1 : AddReq := ⟨"d", .Esp32UdpBroadcast "d" "m1" "9.9.9.9" 7, "u", "c", "i1", 0⟩

/-- Second concrete RawBroadcast request for the C1 witness. -/
def c1Req2 : AddReq := ⟨"d", .Esp32UdpBroadcast "d" "m2" "9.9.9.9" 7, "u", "c", "i2", 1⟩

/-- C1 witness: with cap 1 two consecutive raw broadcasts leave at most one
retained raw event. -/
theorem c1_raw_broadcast_cap_witness :
    rawCount (eventsAt (runAddEvents (DeviceEventStore.mkStore 1) [c1Req1, c1Req2]) "d")
      ≤ 1 :=
  (c1_raw_broadcast_cap 1 (by decide)).1 [c1Req1, c1Req2] "d"

/-- C9 counterexample: the command value Reset{reset:false} serialises to
a JSON carrying reset=false, but the parser answers Reset{reset:true} for
any present reset key, so the round trip is not the identity on it. -/
theorem c9_reset_false_counterexample :
    parse_websocket_command ((Esp32Command.Reset false).to_json) =
      Except.ok (Esp32Command.Reset true) ∧
    Esp32Command.Reset true ≠ Esp32Command.Reset false := by
  exact ⟨rfl, by decide⟩

/-- C9 amended: to_json followed by parse_websocket_command is the
identity on every Esp32Command except Reset{reset:false} (a value no code
path constructs), which re-parses as Reset{reset:true}; SetVariable values
are u32 in the source, carried here as the explicit bound. -/
theorem c9_roundtrip_amended (cmd : Esp32Command)
    (hv : ∀ name value, cmd = .SetVariable name value → value < 4294967296)
    (hr : cmd ≠ .Reset false) :
    parse_websocket_command cmd.to_json = .ok cmd := by
  cases cmd with
  | SetVariable name value =>
    have hb := hv name value rfl
    have hu : (Json.num ((value : Nat) : Int)).asU64 = some value := by
      show (if (0:Int) ≤ ((value : Nat) : Int)
        then some ((value : Nat) : Int).toNat else none) = some value
      rw [if_pos (Int.ofNat_nonneg value)]
      simp
    show (match (Json.num ((value : Nat) : Int)).asU64 with
      | some value_num =>
        Except.ok (Esp32Command.SetVariable name (value_num % 4294967296))
      | none => parse_start_option (Esp32Command.SetVariable name value).to_json) =
      Except.ok (Esp32Command.SetVariable name value)
    rw [hu]
    show Except.ok (Esp32Command.SetVariable name (value % 4294967296)) =
      Except.ok (Esp32Command.SetVariable name value)
    rw [Nat.mod_eq_of_lt hb]
  | StartOption s => rfl
  | Reset r =>
    cases r with
    | false => exact absurd rfl hr
    | true => rfl
  | GetStatus => rfl

/-- C9 witness: the round trip at a concrete SetVariable command. -/
theorem c9_roundtrip_amended_witness :
    parse_websocket_command ((Esp32Command.SetVariable "ledBlinkDelay" 1000).to_json) =
      Except.ok (Esp32Command.SetVariable "ledBlinkDelay" 1000) :=
  c9_roundtrip_amended (Esp32Command.SetVariable "ledBlinkDelay" 1000)
    (by intro n v h; cases h; decide) (by decide)

/-- A connected session for the C3 scenario. -/
def c3ConnectedSession : SessionState :=
  { config := demoConfig, tcp_stream := true, connection_state := .Connected }

/-- Socket outcome where the write on the existing stream fails. -/
def c3WriteFailOutcome : TcpIoOutcome :=
  { write_ok := false, flush_ok := true, reconnect_ok := true,
    write2_ok := true, flush2_ok := true }

/-- Socket outcome where everything succeeds. -/
def c3AllOkOutcome : TcpIoOutcome :=
  { write_ok := true, flush_ok := true, reconnect_ok := true,
    write2_ok := true, flush2_ok := true }

/-- C3 counterexample: a Reset on a connected session whose TCP write
fails returns success, but the stream handle is NOT set to None and the
state does NOT become Connecting — the session is left untouched, contrary
to the claim that after the send the handle is dropped and the state is
Connecting. -/
theorem c3_reset_error_counterexample :
    (c3ConnectedSession.send_command (.Reset true) c3WriteFailOutcome).1 = .ok () ∧
    (c3ConnectedSession.send_command (.Reset true) c3WriteFailOutcome).2.1.tcp_stream
      = true ∧
    (c3ConnectedSession.send_command (.Reset true)
      c3WriteFailOutcome).2.1.connection_state = .Connected := by
  exact ⟨rfl, rfl, rfl⟩

/-- C3 amended: on a session with a live stream, a Reset send always
returns success; only when both write and flush succeed is the handle
dropped and the state moved to Connecting — on a write/flush failure the
session is left untouched; no event at all (in particular no
connected=false status) is pushed on this path, and no reset path ever
emits a connected=false status. -/
theorem c3_reset_amended (st : SessionState) (io : TcpIoOutcome)
    (hs : st.tcp_stream = true) :
    ((st.send_command (.Reset true) io).1 = .ok ()) ∧
    (io.write_ok = true → io.flush_ok = true →
      (st.send_command (.Reset true) io).2.1.tcp_stream = false ∧
      (st.send_command (.Reset true) io).2.1.connection_state = .Connecting) ∧
    ((io.write_ok = false ∨ io.flush_ok = false) →
      (st.send_command (.Reset true) io).2.1 = st) ∧
    ((st.send_command (.Reset true) io).2.2 = []) ∧
    (∀ (st2 : SessionState) (io2 : TcpIoOutcome),
      ((st2.send_command (.Reset true) io2).2.2.filter
        (fun e => match e with
          | Esp32Event.ConnectionStatus connected _ _ _ => !connected
          | _ => false)) = []) := by
  refine ⟨?_, ?_, ?_, ?_, ?_⟩
  · unfold SessionState.send_command
    simp only [hs, if_true]
    cases hw : io.write_ok <;> cases hf : io.flush_ok <;> simp [hw, hf]
  · intro hw hf
    unfold SessionState.send_command
    simp [hs, hw, hf]
  · intro hwf
    unfold SessionState.send_command
    rcases hwf with hw | hf
    · simp [hs, hw]
    · cases hw : io.write_ok <;> simp [hs, hw, hf]
  · unfold SessionState.send_command
    simp only [hs, if_true]
    cases hw : io.write_ok <;> cases hf : io.flush_ok <;> simp [hw, hf]
  · intro st2 io2
    unfold SessionState.send_command
    cases hst : st2.tcp_stream <;>
      cases hw : io2.write_ok <;> cases hf : io2.flush_ok <;>
      cases hr : io2.reconnect_ok <;> cases hw2 : io2.write2_ok <;>
      cases hf2 : io2.flush2_ok <;>
      simp [hst, hw, hf, hr, hw2, hf2, List.filter_cons,
        Esp32Event.connection_status]

/-- C3 witness: the amended statement at a concrete connected session with
a fully successful reset send. -/
theorem c3_reset_amended_witness :
    ((c3ConnectedSession.send_command (.Reset true) c3AllOkOutcome).1 = .ok ()) ∧
    (c3AllOkOutcome.write_ok = true → c3AllOkOutcome.flush_ok = true →
      (c3ConnectedSession.send_command (.Reset true) c3AllOkOutcome).2.1.tcp_stream
        = false ∧
      (c3ConnectedSession.send_command (.Reset true)
        c3AllOkOutcome).2.1.connection_state = .Connecting) ∧
    ((c3AllOkOutcome.write_ok = false ∨ c3AllOkOutcome.flush_ok = false) →
      (c3ConnectedSession.send_command (.Reset true) c3AllOkOutcome).2.1 =
        c3ConnectedSession) ∧
    ((c3ConnectedSession.send_command (.Reset true) c3AllOkOutcome).2.2 = []) ∧
    (∀ (st2 : SessionState) (io2 : TcpIoOutcome),
      ((st2.send_command (.Reset true) io2).2.2.filter
        (fun e => match e with
          | Esp32Event.ConnectionStatus connected _ _ _ => !connected
          | _ => false)) = []) :=
  c3_reset_amended c3ConnectedSession c3AllOkOutcome rfl

/-- Store with one existing connection (user u1 on client c1) for the C5
scenario. -/
def c5Store : DeviceEventStore :=
  { device_events := []
    active_connections := [("dev", [⟨"u1", "Alice", "c1", "#FF6B6B", .Full⟩])]
    max_debug_messages_per_device := 200 }

/-- C5 counterexample: when the same client_id re-registers and it was the
only entry of that user, the surviving entries (after the same-client_id
removal) share no user_id — the claim then prescribes a fresh hash-probed
color and a real UserJoined — yet the code broadcasts the
USER_COUNT_REFRESH sentinel, because its reconnection probe ran before the
removal. -/
theorem c5_reconnection_check_counterexample :
    (c5Store.register_client "dev" "u1" "Alice" "c1" .Full).joined_event =
      DeviceEvent.user_joined "USER_COUNT_REFRESH" "" "" ∧
    ((alLookup c5Store.active_connections "dev").getD []).filter
      (fun c => c.client_id ≠ "c1") = [] := by
  exact ⟨rfl, rfl⟩

/-- C5 amended: register_client removes same-client_id entries and appends
the new one, but the reconnection check reads the entry list BEFORE that
removal: if any pre-removal entry shares the user_id its color is reused
and the USER_COUNT_REFRESH sentinel is broadcast; only when no pre-removal
entry shares the user_id is a color hash-probed over the surviving users'
colors and a real UserJoined broadcast.  Histories are untouched and the
replay snapshot is the stored history. -/
theorem c5_register_client_amended (st : DeviceEventStore)
    (device_id user_id display_name client_id : String) (sub : SubscriptionType) :
    (∀ c, ((alLookup st.active_connections device_id).getD []).find?
        (fun conn => conn.user_id = user_id) = some c →
      (st.register_client device_id user_id display_name client_id sub).joined_event =
        DeviceEvent.user_joined "USER_COUNT_REFRESH" "" "" ∧
      (st.register_client device_id user_id display_name client_id
        sub).assigned_color = c.user_color) ∧
    (((alLookup st.active_connections device_id).getD []).find?
        (fun conn => conn.user_id = user_id) = none →
      (st.register_client device_id user_id display_name client_id sub).joined_event =
        DeviceEvent.user_joined user_id display_name
          (generate_user_color user_id (userColorValues
            (((alLookup st.active_connections device_id).getD []).filter
              (fun conn => conn.client_id ≠ client_id))))) ∧
    (alLookup (st.register_client device_id user_id display_name client_id
        sub).store.active_connections device_id =
      some ((((alLookup st.active_connections device_id).getD []).filter
          (fun conn => conn.client_id ≠ client_id)) ++
        [⟨user_id, display_name, client_id,
          (st.register_client device_id user_id display_name client_id
            sub).assigned_color, sub⟩])) ∧
    ((st.register_client device_id user_id display_name client_id
      sub).store.device_events = st.device_events) ∧
    ((st.register_client device_id user_id display_name client_id sub).replay =
      st.get_device_events device_id) := by
  refine ⟨?_, ?_, ?_, rfl, rfl⟩
  · intro c hf
    unfold DeviceEventStore.register_client
    simp only [hf, Option.map_some, Option.isSome_some]
    exact ⟨rfl, rfl⟩
  · intro hf
    unfold DeviceEventStore.register_client
    simp only [hf, Option.map_none, Option.isSome_none]
    rfl
  · unfold DeviceEventStore.register_client
    cases hf : ((alLookup st.active_connections device_id).getD []).find?
        (fun conn => conn.user_id = user_id) with
    | some c =>
      simp only [hf, Option.map_some, Option.isSome_some]
      exact alLookup_alInsert_self _ _ _
    | none =>
      simp only [hf, Option.map_none, Option.isSome_none]
      exact alLookup_alInsert_self _ _ _

/-- C5 witness: registering a fresh user on an empty store broadcasts a
real UserJoined carrying the hash-probed color. -/
theorem c5_register_client_amended_witness :
    ((DeviceEventStore.mkStore 200).register_client "dev" "u1" "Alice" "c1"
      .Full).joined_event =
      DeviceEvent.user_joined "u1" "Alice" (generate_user_color "u1"
        (userColorValues ((((alLookup (DeviceEventStore.mkStore
          200).active_connections "dev").getD []).filter
            (fun conn => conn.client_id ≠ "c1"))))) :=
  (c5_register_client_amended (DeviceEventStore.mkStore 200) "dev" "u1" "Alice" "c1"
    SubscriptionType.Full).2.1 rfl

/-- The event history after storing one variable update, for C4. -/
def c4Store : DeviceEventStore :=
  runAddEvents (DeviceEventStore.mkStore 200)
    [⟨"d", .Esp32VariableUpdate "d" "x" "1" none none, "u0", "c0", "i0", 0⟩]

/-- C4 counterexample: a Light subscriber's registration replay batch is
sent unfiltered: it delivers the stored Esp32VariableUpdate — not a
ConnectionStatus — to the Light subscriber's channel. -/
theorem c4_light_replay_counterexample :
    (handle_register_replay c4Store "d" "u" "Nina" "c" .Light).2 =
      ServerMessage.device_events "d" [.Esp32VariableUpdate "d" "x" "1" none none] ∧
    (DeviceEvent.Esp32VariableUpdate "d" "x" "1" none none).isConnectionStatus
      = false := by
  exact ⟨rfl, rfl⟩

/-- C4 amended: live broadcasts respect the Light filter — any delivery of
broadcast_event to a client whose registered connections on the device are
all Light carries a ConnectionStatus event — while the replay batch on
registration is sent to the attaching client without that filter. -/
theorem c4_light_filter_amended (st : DeviceEventStore) (device_id : String)
    (event : DeviceEvent) (sender cid : String) (msg : ServerMessage)
    (hmem : (cid, msg) ∈ st.broadcast_event device_id event sender)
    (hlight : ∀ conns c, alLookup st.active_connections device_id = some conns →
      c ∈ conns → c.client_id = cid → c.subscription_type = .Light) :
    event.isConnectionStatus = true := by
  unfold DeviceEventStore.broadcast_event at hmem
  cases hl : alLookup st.active_connections device_id with
  | none =>
    rw [hl] at hmem
    simp at hmem
  | some conns =>
    rw [hl] at hmem
    simp only [] at hmem
    obtain ⟨c, hc, hfc⟩ := List.mem_filterMap.mp hmem
    by_cases h1 : c.client_id = sender
    · rw [if_pos h1] at hfc
      exact absurd hfc (by simp)
    · rw [if_neg h1] at hfc
      by_cases h2 : c.subscription_type = SubscriptionType.Light ∧
          ¬ event.isConnectionStatus = true
      · rw [if_pos h2] at hfc
        exact absurd hfc (by simp)
      · rw [if_neg h2] at hfc
        simp only [Option.some.injEq, Prod.mk.injEq] at hfc
        have hl2 := hlight conns c hl hc hfc.1
        by_cases h3 : event.isConnectionStatus = true
        · exact h3
        · exact absurd ⟨hl2, h3⟩ h2

/-- A store with a single Light subscriber for the C4 witness. -/
def c4LightStore : DeviceEventStore :=
  { device_events := []
    active_connections := [("d", [⟨"uL", "Lia", "cL", "#4ECDC4", .Light⟩])]
    max_debug_messages_per_device := 200 }

/-- C4 witness: the one event a Light subscriber receives from a live
broadcast is a ConnectionStatus. -/
theorem c4_light_filter_amended_witness :
    (DeviceEvent.esp32_connection_status "d" true "1.2.3.4" 3232
      3232).isConnectionStatus = true := by
  refine c4_light_filter_amended c4LightStore "d"
    (DeviceEvent.esp32_connection_status "d" true "1.2.3.4" 3232 3232) "other" "cL"
    (ServerMessage.device_events "d"
      [DeviceEvent.esp32_connection_status "d" true "1.2.3.4" 3232 3232])
    ?_ ?_
  · exact List.Mem.head _
  · intro conns c h1 h2 h3
    rw [show alLookup c4LightStore.active_connections "d" =
      some [⟨"uL", "Lia", "cL", "#4ECDC4", .Light⟩] from rfl] at h1
    cases h1
    rcases List.mem_singleton.mp h2 with rfl
    rfl

/-- The mDNS resolution of scenario S1 for the C6 counterexample. -/
def c6Mdns : MdnsEsp32Device :=
  { hostname := "esp32-abc.local.", port := 3232,
    ip_addresses := ["192.168.1.50"],
    txt_records := [("mac", "AA:BB:CC:DD:EE:01")] }

/-- C6 counterexample: after a fresh mDNS resolution the event store's
histories are unchanged — the DeviceDiscovered event is only passed to
broadcast_event — so the reserved "system" history stays empty and a
subscriber registering for "system" afterwards replays nothing, contrary
to the claim that the event is appended and replayed. -/
theorem c6_discovery_not_stored_counterexample :
    (discovery_callback c6Mdns [] (DeviceEventStore.mkStore 200)
      (some Esp32ManagerState.empty) "t0").store = DeviceEventStore.mkStore 200 ∧
    (discovery_callback c6Mdns [] (DeviceEventStore.mkStore 200)
      (some Esp32ManagerState.empty) "t0").store.get_device_events "system" = [] ∧
    ((discovery_callback c6Mdns [] (DeviceEventStore.mkStore 200)
      (some Esp32ManagerState.empty) "t0").store.register_client "system" "u" "n" "c"
        .Full).replay = [] := by
  exact ⟨rfl, rfl, rfl⟩

/-- C6 amended: the mDNS discovery callback broadcasts the
Esp32DeviceDiscovered event on the reserved "system" id to the currently
registered subscribers only; it never appends it to any history, so every
device's replayable history is exactly what it was before the
resolution. -/
theorem c6_discovery_amended (mdns : MdnsEsp32Device)
    (discovered : List (String × Esp32DeviceConfig)) (store : DeviceEventStore)
    (manager : Option Esp32ManagerState) (ts : String) :
    (discovery_callback mdns discovered store manager ts).store = store ∧
    (∀ d, (discovery_callback mdns discovered store manager ts).store.get_device_events
      d = store.get_device_events d) ∧
    (discovery_callback mdns discovered store manager ts).deliveries =
      store.broadcast_event "system"
        (discovery_callback mdns discovered store manager ts).discovery_event
        "system" := by
  exact ⟨rfl, fun d => rfl, rfl⟩

/-- C10 counterexample: a websocket client can submit a UserJoined event
with non-empty fields through the deviceEvent path; it passes validation,
is appended to the history, and then shows up in a later registration's
replay snapshot — so presence events are not always kept out of histories
and replays. -/
theorem c10_client_injected_presence_counterexample :
    (handle_device_events_store (DeviceEventStore.mkStore 200) "d"
      [DeviceEvent.UserJoined "u9" "Nina" "#123456"] "u" "c" ["i1"] 0).toOption.map
      (fun st2 => (st2.register_client "d" "u2" "Beth" "c2" .Full).replay) =
      some [DeviceEvent.UserJoined "u9" "Nina" "#123456"] := rfl

/-- removeFirstRaw keeps every Boolean invariant that held for all
entries. -/
theorem all_removeFirstRaw (p : EventWithMetadata → Bool)
    (l : List EventWithMetadata) (h : l.all p = true) :
    (removeFirstRaw l).all p = true := by
  induction l with
  | nil => exact h
  | cons e rest ih =>
    rw [List.all_cons, Bool.and_eq_true] at h
    by_cases he : e.event.isUdpBroadcast
    · simpa [removeFirstRaw, he] using h.2
    · simp only [removeFirstRaw, he, Bool.false_eq_true, if_false, List.all_cons,
        Bool.and_eq_true]
      exact ⟨h.1, ih h.2⟩

/-- get_device_events is the stored history with metadata stripped. -/
theorem get_device_events_eq (st : DeviceEventStore) (d : String) :
    st.get_device_events d = (eventsAt st d).map (fun e => e.event) := by
  unfold DeviceEventStore.get_device_events eventsAt
  cases alLookup st.device_events d <;> rfl

/-- C10 amended: the presence events generated by register_client and
unregister_client are only broadcast, never appended — both operations
leave every history unchanged; the USER_COUNT_REFRESH sentinels (empty
display_name/user_color) would be rejected by add_event validation;
histories and replay snapshots stay free of UserJoined/UserLeft as long as
no add_event call carries one — but a client-submitted valid
UserJoined/UserLeft is stored and replayed (see the counterexample). -/
theorem c10_presence_amended :
    (∀ (st : DeviceEventStore) (device_id user_id display_name client_id : String)
      (sub : SubscriptionType),
      (st.register_client device_id user_id display_name client_id
        sub).store.device_events = st.device_events) ∧
    (∀ (st : DeviceEventStore) (device_id client_id : String),
      (st.unregister_client device_id client_id).1.device_events =
        st.device_events) ∧
    ((DeviceEvent.user_joined "USER_COUNT_REFRESH" "" "").validate =
      .error "UserJoined requires non-empty user_id, display_name, and user_color") ∧
    ((DeviceEvent.user_left "USER_COUNT_REFRESH" "" "").validate =
      .error "UserLeft requires non-empty user_id, display_name, and user_color") ∧
    (∀ (st : DeviceEventStore) (device_id : String) (ev : DeviceEvent)
      (uid cid fid : String) (now : Int) (st2 : DeviceEventStore)
      (dels : List (String × ServerMessage)),
      st.add_event device_id ev uid cid fid now = .ok (st2, dels) →
      ev.isPresence = false →
      ∀ d, (eventsAt st d).all (fun e => !e.event.isPresence) = true →
        (eventsAt st2 d).all (fun e => !e.event.isPresence) = true) ∧
    (∀ (st : DeviceEventStore) (device_id user_id display_name client_id : String)
      (sub : SubscriptionType),
      (eventsAt st device_id).all (fun e => !e.event.isPresence) = true →
      ((st.register_client device_id user_id display_name client_id sub).replay.all
        (fun e => !e.isPresence)) = true) := by
  refine ⟨fun st _ _ _ _ _ => rfl, ?_, rfl, rfl, ?_, ?_⟩
  · intro st device_id client_id
    unfold DeviceEventStore.unregister_client
    cases hl : alLookup st.active_connections device_id with
    | none => rfl
    | some conns =>
      simp only []
      cases hcr : conns.find? (fun conn => conn.client_id = client_id) with
      | none => rfl
      | some rc =>
        simp only []
        split <;> (split <;> rfl)
  · intro st device_id ev uid cid fid now st2 dels h hpres d hall
    obtain ⟨hev, _, _⟩ := add_event_ok_elim st device_id ev uid cid fid now st2 dels h
    by_cases hd : d = device_id
    · subst hd
      rw [eventsAt, hev, alLookup_alInsert_self, Option.getD_some, List.all_append,
        Bool.and_eq_true]
      constructor
      · by_cases hcond : ev.isUdpBroadcast = true ∧
            st.max_debug_messages_per_device > 0
        · rw [if_pos hcond]
          by_cases hge : rawCount (eventsAt st d) ≥ st.max_debug_messages_per_device
          · rw [if_pos hge]
            exact all_removeFirstRaw _ _ hall
          · rw [if_neg hge]
            exact hall
        · rw [if_neg hcond]
          exact hall
      · simp [hpres]
    · rw [eventsAt, hev, alLookup_alInsert_ne _ _ _ _ hd]
      exact hall
  · intro st device_id user_id display_name client_id sub hall
    have hrep : (st.register_client device_id user_id display_name client_id
        sub).replay = st.get_device_events device_id := by
      unfold DeviceEventStore.register_client
      rfl
    rw [hrep, get_device_events_eq]
    simpa [List.all_map, Function.comp] using hall

/-- C10 witness: a register on a presence-free history replays no presence
event, via the amended theorem at the empty store. -/
theorem c10_presence_amended_witness :
    (((DeviceEventStore.mkStore 200).register_client "d" "u" "Nina" "c"
      .Full).replay.all (fun e => !e.isPresence)) = true :=
  c10_presence_amended.2.2.2.2.2 (DeviceEventStore.mkStore 200) "d" "u" "Nina" "c"
    SubscriptionType.Full rfl

/-! ## C2/C8 support: properties of the emitted ConnectionStatus events -/

/-- Connected=false connection-status events. -/
def DeviceEvent.isConnectedFalse : DeviceEvent → Bool
  | .Esp32ConnectionStatus _ connected _ _ _ => !connected
  | _ => false

theorem connectedTrue_imp_connstatus (e : DeviceEvent)
    (h : e.isConnectedTrue = true) : e.isConnectionStatus = true := by
  cases e <;> simp [DeviceEvent.isConnectedTrue, DeviceEvent.isConnectionStatus] at *

theorem disconnectFor_imp_connstatus (d : String) (e : DeviceEvent)
    (h : e.isDisconnectFor d = true) : e.isConnectionStatus = true := by
  cases e <;> simp [DeviceEvent.isDisconnectFor, DeviceEvent.isConnectionStatus] at *

/-- Generic: a filterMap whose hits all satisfy p yields an all-p list. -/
theorem all_filterMap_of {α : Type} (f : α → Option DeviceEvent) (l : List α)
    (p : DeviceEvent → Bool) (h : ∀ a e, f a = some e → p e = true) :
    ((l.filterMap f).all p) = true := by
  rw [List.all_eq_true]
  intro e he
  obtain ⟨a, _, hf⟩ := List.mem_filterMap.mp he
  exact h a e hf

theorem startOptionsEvents_no_connstatus (d : String) (v : Json) :
    ((startOptionsEvents d v).all (fun e => !e.isConnectionStatus)) = true := by
  unfold startOptionsEvents
  split
  · split
    · dsimp only
      split
      · rfl
      · rfl
    · rfl
  · rfl

theorem changeableVariablesEvents_no_connstatus (d : String) (v : Json) :
    ((changeableVariablesEvents d v).all (fun e => !e.isConnectionStatus)) = true := by
  unfold changeableVariablesEvents
  split
  · split
    · dsimp only
      split
      · rfl
      · rfl
    · rfl
  · rfl

theorem deviceInfoEvents_no_connstatus (d : String) (v : Json) :
    ((deviceInfoEvents d v).all (fun e => !e.isConnectionStatus)) = true := by
  unfold deviceInfoEvents
  split
  · rfl
  · rfl

theorem singleVarEvents_no_connstatus (d : String) (v : Json) :
    ((singleVarEvents d v).all (fun e => !e.isConnectionStatus)) = true := by
  unfold singleVarEvents
  split
  · dsimp only
    split
    · refine all_filterMap_of _ _ _ (fun kv e hf => ?_)
      split at hf
      · split at hf
        · simp only [Option.some.injEq] at hf
          subst hf
          rfl
        · exact absurd hf (by simp)
      · exact absurd hf (by simp)
    · rfl
  · rfl

theorem regexStringVarEvents_no_connstatus (d m : String) :
    ((regexStringVarEvents d m).all (fun e => !e.isConnectionStatus)) = true := by
  refine all_filterMap_of _ _ _ (fun cap e hf => ?_)
  dsimp only at hf
  split at hf
  · simp only [Option.some.injEq] at hf
    subst hf
    rfl
  · exact absurd hf (by simp)

theorem regexNumericVarEvents_no_connstatus (d m : String) :
    ((regexNumericVarEvents d m).all (fun e => !e.isConnectionStatus)) = true := by
  refine all_filterMap_of _ _ _ (fun cap e hf => ?_)
  dsimp only at hf
  split at hf
  · simp only [Option.some.injEq] at hf
    subst hf
    rfl
  · exact absurd hf (by simp)

/-- No event produced by parse_and_process_message is a ConnectionStatus:
the parser only builds StartOptions, ChangeableVariables, DeviceInfo and
VariableUpdate events. -/
theorem parse_no_connstatus (device_id message : String) (parsed : Option Json) :
    ((parse_and_process_message device_id message parsed).all
      (fun e => !e.isConnectionStatus)) = true := by
  unfold parse_and_process_message
  cases parsed with
  | none =>
    simp only [List.nil_append, List.all_append, Bool.and_eq_true]
    exact ⟨regexStringVarEvents_no_connstatus _ _, regexNumericVarEvents_no_connstatus _ _⟩
  | some v =>
    simp only [List.all_append, Bool.and_eq_true]
    repeat' apply And.intro
    all_goals
      first
        | exact startOptionsEvents_no_connstatus _ _
        | exact changeableVariablesEvents_no_connstatus _ _
        | exact deviceInfoEvents_no_connstatus _ _
        | exact singleVarEvents_no_connstatus _ _
        | exact regexStringVarEvents_no_connstatus _ _
        | exact regexNumericVarEvents_no_connstatus _ _

/-- Lists free of ConnectionStatus events contribute nothing to a filter by
a predicate that implies isConnectionStatus. -/
theorem filter_of_no_connstatus (l : List DeviceEvent) (p : DeviceEvent → Bool)
    (h : (l.all (fun e => !e.isConnectionStatus)) = true)
    (hp : ∀ e, p e = true → e.isConnectionStatus = true) : l.filter p = [] := by
  rw [List.filter_eq_nil_iff]
  intro a ha hpa
  have h1 := List.all_eq_true.mp h a ha
  simp only [Bool.not_eq_true'] at h1
  rw [hp a hpa] at h1
  exact Bool.true_eq_false.mp h1

/-! ## C2/C8 support: the timeout-monitor sweep -/

theorem monitorCheckDevice_other (now : Nat)
    (acc : List (String × Nat) × List (String × Bool) × List DeviceEvent)
    (entry : String × Esp32DeviceConfig) (d : String) (h : entry.1 ≠ d) :
    alLookup (monitorCheckDevice now acc entry).1 d = alLookup acc.1 d ∧
    alLookup (monitorCheckDevice now acc entry).2.1 d = alLookup acc.2.1 d ∧
    (monitorCheckDevice now acc entry).2.2.filter (fun e => e.isDisconnectFor d) =
      acc.2.2.filter (fun e => e.isDisconnectFor d) := by
  have hdne : d ≠ entry.1 := fun he => h he.symm
  unfold monitorCheckDevice
  dsimp only
  cases hl : alLookup acc.1 entry.1 with
  | none => exact ⟨rfl, rfl, rfl⟩
  | some t =>
    dsimp only
    by_cases he : now - t > entry.2.udp_timeout_seconds
    · rw [if_pos he]
      have hev : (DeviceEvent.esp32_connection_status entry.1 false
          entry.2.ip_address entry.2.tcp_port entry.2.udp_port).isDisconnectFor d
          = false := by
        simp [DeviceEvent.esp32_connection_status, DeviceEvent.isDisconnectFor, h]
      by_cases hw : (alLookup acc.2.1 entry.1).getD false = true
      · rw [hw]
        dsimp only
        refine ⟨alLookup_alRemove_ne _ _ _ hdne, ?_, ?_⟩
        · simp only [if_true]
          exact alLookup_alInsert_ne _ _ _ _ hdne
        · simp only [if_true, List.filter_append, List.filter_cons, hev,
            Bool.false_eq_true, if_false, List.filter_nil, List.append_nil]
      · rw [Bool.not_eq_true] at hw
        rw [hw]
        dsimp only
        exact ⟨alLookup_alRemove_ne _ _ _ hdne, rfl, rfl⟩
    · rw [if_neg he]
      exact ⟨rfl, rfl, rfl⟩

theorem monitorCheckDevice_fire (now : Nat)
    (acc : List (String × Nat) × List (String × Bool) × List DeviceEvent)
    (d : String) (cfg : Esp32DeviceConfig) (t : Nat)
    (ht : alLookup acc.1 d = some t) (he : now - t > cfg.udp_timeout_seconds)
    (hw : (alLookup acc.2.1 d).getD false = true) :
    alLookup (monitorCheckDevice now acc (d, cfg)).1 d = none ∧
    alLookup (monitorCheckDevice now acc (d, cfg)).2.1 d = some false ∧
    (monitorCheckDevice now acc (d, cfg)).2.2.filter (fun e => e.isDisconnectFor d) =
      acc.2.2.filter (fun e => e.isDisconnectFor d) ++
        [DeviceEvent.esp32_connection_status d false cfg.ip_address cfg.tcp_port
          cfg.udp_port] := by
  have hev : (DeviceEvent.esp32_connection_status d false cfg.ip_address
      cfg.tcp_port cfg.udp_port).isDisconnectFor d = true := by
    simp [DeviceEvent.esp32_connection_status, DeviceEvent.isDisconnectFor]
  unfold monitorCheckDevice
  dsimp only
  rw [ht]
  dsimp only
  rw [if_pos he, hw]
  dsimp only
  refine ⟨alLookup_alRemove_self _ _, ?_, ?_⟩
  · simp only [if_true]
    exact alLookup_alInsert_self _ _ _
  · simp only [if_true, List.filter_append, List.filter_cons, hev, if_true,
      List.filter_nil]

theorem monitorCheckDevice_noflag (now : Nat)
    (acc : List (String × Nat) × List (String × Bool) × List DeviceEvent)
    (d : String) (cfg : Esp32DeviceConfig)
    (hw : (alLookup acc.2.1 d).getD false = false) :
    alLookup (monitorCheckDevice now acc (d, cfg)).1 d = none ∨
      (monitorCheckDevice now acc (d, cfg)) = acc := by
  unfold monitorCheckDevice
  dsimp only
  cases ht : alLookup acc.1 d with
  | none => exact Or.inr rfl
  | some t =>
    dsimp only
    by_cases he : now - t > cfg.udp_timeout_seconds
    · rw [if_pos he, hw]
      dsimp only
      exact Or.inl (alLookup_alRemove_self _ _)
    · rw [if_neg he]
      exact Or.inr rfl

theorem monitorCheckDevice_noflag_keeps (now : Nat)
    (acc : List (String × Nat) × List (String × Bool) × List DeviceEvent)
    (d : String) (cfg : Esp32DeviceConfig)
    (hw : (alLookup acc.2.1 d).getD false = false) :
    (monitorCheckDevice now acc (d, cfg)).2.1 = acc.2.1 ∧
    (monitorCheckDevice now acc (d, cfg)).2.2 = acc.2.2 := by
  unfold monitorCheckDevice
  dsimp only
  cases ht : alLookup acc.1 d with
  | none => exact ⟨rfl, rfl⟩
  | some t =>
    dsimp only
    by_cases he : now - t > cfg.udp_timeout_seconds
    · rw [if_pos he, hw]
      dsimp only
      exact ⟨rfl, rfl⟩
    · rw [if_neg he]
      exact ⟨rfl, rfl⟩

theorem monitorCheckDevice_no_tracker (now : Nat)
    (acc : List (String × Nat) × List (String × Bool) × List DeviceEvent)
    (entry : String × Esp32DeviceConfig)
    (ht : alLookup acc.1 entry.1 = none) :
    monitorCheckDevice now acc entry = acc := by
  unfold monitorCheckDevice
  dsimp only
  rw [ht]

/-- The tracker is only ever shrunk by the sweep. -/
theorem monitorCheckDevice_tracker_none (now : Nat)
    (acc : List (String × Nat) × List (String × Bool) × List DeviceEvent)
    (entry : String × Esp32DeviceConfig) (d : String)
    (h : alLookup acc.1 d = none) :
    alLookup (monitorCheckDevice now acc entry).1 d = none := by
  unfold monitorCheckDevice
  dsimp only
  cases hl : alLookup acc.1 entry.1 with
  | none => exact h
  | some t =>
    dsimp only
    by_cases he : now - t > entry.2.udp_timeout_seconds
    · rw [if_pos he]
      by_cases hw : (alLookup acc.2.1 entry.1).getD false = true
      · rw [hw]
        dsimp only
        by_cases hd : d = entry.1
        · rw [hd]
          exact alLookup_alRemove_self _ _
        · rw [alLookup_alRemove_ne _ _ _ hd]
          exact h
      · rw [Bool.not_eq_true] at hw
        rw [hw]
        dsimp only
        by_cases hd : d = entry.1
        · rw [hd]
          exact alLookup_alRemove_self _ _
        · rw [alLookup_alRemove_ne _ _ _ hd]
          exact h
    · rw [if_neg he]
      exact h

theorem monitor_fold_other (now : Nat) (d : String)
    (entries : List (String × Esp32DeviceConfig))
    (acc : List (String × Nat) × List (String × Bool) × List DeviceEvent)
    (h : ∀ e ∈ entries, e.1 ≠ d) :
    alLookup (entries.foldl (monitorCheckDevice now) acc).1 d = alLookup acc.1 d ∧
    alLookup (entries.foldl (monitorCheckDevice now) acc).2.1 d =
      alLookup acc.2.1 d ∧
    (entries.foldl (monitorCheckDevice now) acc).2.2.filter
      (fun e => e.isDisconnectFor d) =
      acc.2.2.filter (fun e => e.isDisconnectFor d) := by
  induction entries generalizing acc with
  | nil => exact ⟨rfl, rfl, rfl⟩
  | cons e rest ih =>
    rw [List.foldl_cons]
    have hstep := monitorCheckDevice_other now acc e d
      (h e (List.mem_cons_self _ _))
    have hrest := ih (monitorCheckDevice now acc e)
      (fun x hx => h x (List.mem_cons_of_mem _ hx))
    exact ⟨hrest.1.trans hstep.1, hrest.2.1.trans hstep.2.1,
      hrest.2.2.trans hstep.2.2⟩

theorem monitor_fold_no_tracker (now : Nat) (d : String)
    (entries : List (String × Esp32DeviceConfig))
    (acc : List (String × Nat) × List (String × Bool) × List DeviceEvent)
    (ht : alLookup acc.1 d = none) :
    alLookup (entries.foldl (monitorCheckDevice now) acc).1 d = none ∧
    (entries.foldl (monitorCheckDevice now) acc).2.2.filter
      (fun e => e.isDisconnectFor d) =
      acc.2.2.filter (fun e => e.isDisconnectFor d) := by
  induction entries generalizing acc with
  | nil => exact ⟨ht, rfl⟩
  | cons e rest ih =>
    rw [List.foldl_cons]
    by_cases hd : e.1 = d
    · have hstep : monitorCheckDevice now acc e = acc :=
        monitorCheckDevice_no_tracker now acc e (by rw [hd]; exact ht)
      rw [hstep]
      exact ih acc ht
    · have hstep := monitorCheckDevice_other now acc e d hd
      have hrest := ih (monitorCheckDevice now acc e) (hstep.1.trans ht)
      exact ⟨hrest.1, hrest.2.trans hstep.2.2⟩

/-- Auto-registration keeps existing configs. -/
theorem monitorAutoRegister_preserves (tracked : List String)
    (configs : List (String × Esp32DeviceConfig)) (d2 : String)
    (c : Esp32DeviceConfig) (h : alLookup configs d2 = some c) :
    alLookup (monitorAutoRegister tracked configs) d2 = some c := by
  induction tracked generalizing configs with
  | nil => exact h
  | cons t0 rest ih =>
    unfold monitorAutoRegister
    rw [List.foldl_cons]
    by_cases hc : alContains configs t0 = true
    · rw [if_pos hc]
      exact ih configs h
    · rw [if_neg hc]
      refine ih _ ?_
      by_cases ht0 : t0 = d2
      · subst ht0
        rw [alContains, h] at hc
        exact absurd rfl hc
      · rw [alLookup_alInsert_ne _ _ _ _ (fun he => ht0 he.symm)]
        exact h

/-- A tracked device missing from configs is auto-registered with the
default UART config. -/
theorem monitorAutoRegister_new (tracked : List String)
    (configs : List (String × Esp32DeviceConfig)) (d2 : String)
    (h : alLookup configs d2 = none) (hm : d2 ∈ tracked) :
    alLookup (monitorAutoRegister tracked configs) d2 =
      some (Esp32DeviceConfig.new_uart d2) := by
  induction tracked generalizing configs with
  | nil => exact absurd hm (List.not_mem_nil _)
  | cons t0 rest ih =>
    unfold monitorAutoRegister
    rw [List.foldl_cons]
    by_cases hc : alContains configs t0 = true
    · rw [if_pos hc]
      have ht0 : t0 ≠ d2 := by
        intro he
        rw [he, alContains, h] at hc
        exact absurd hc (by simp)
      cases hm with
      | head => exact absurd rfl ht0
      | tail _ hm2 => exact ih configs h hm2
    · rw [if_neg hc]
      by_cases ht0 : t0 = d2
      · subst ht0
        exact monitorAutoRegister_preserves rest _ t0 _
          (alLookup_alInsert_self _ _ _)
      · cases hm with
        | head => exact absurd rfl ht0
        | tail _ hm2 =>
          refine ih _ ?_ hm2
          rw [alLookup_alInsert_ne _ _ _ _ (fun he => ht0 he.symm)]
          exact h

/-- C8: one monitor tick, for a device d with a last-seen entry, marked
connected, whose inactivity exceeds its configured timeout (the config
after the auto-registration sweep, which inserts a default UART config for
tracked devices missing from configs): exactly one
ConnectionStatus{connected:false} for d is emitted, the connected flag is
cleared, the activity entry is evicted, and a subsequent tick emits no
further disconnect event for d; tracked devices absent from configs are
in configs with the default UART config afterwards. -/
theorem c8_liveness_monitor_tick (st : Esp32ManagerState) (now now2 : Nat)
    (d : String) (cfg : Esp32DeviceConfig) (t : Nat)
    (hnodup : ((monitorAutoRegister (st.unified_activity_tracker.map (fun p => p.1))
      st.device_configs).map (fun p => p.1)).Nodup)
    (hcfg : alLookup (monitorAutoRegister (st.unified_activity_tracker.map
      (fun p => p.1)) st.device_configs) d = some cfg)
    (ht : alLookup st.unified_activity_tracker d = some t)
    (hconn : (alLookup st.unified_connection_states d).getD false = true)
    (htimeout : now - t > cfg.udp_timeout_seconds) :
    ((unified_timeout_monitor_tick st now).2.filter
      (fun e => e.isDisconnectFor d)) =
      [DeviceEvent.esp32_connection_status d false cfg.ip_address cfg.tcp_port
        cfg.udp_port] ∧
    alLookup (unified_timeout_monitor_tick st now).1.unified_connection_states d =
      some false ∧
    alLookup (unified_timeout_monitor_tick st now).1.unified_activity_tracker d =
      none ∧
    ((unified_timeout_monitor_tick (unified_timeout_monitor_tick st now).1
      now2).2.filter (fun e => e.isDisconnectFor d)) = [] ∧
    (∀ d2 ∈ st.unified_activity_tracker.map (fun p => p.1),
      alLookup st.device_configs d2 = none →
      alLookup (unified_timeout_monitor_tick st now).1.device_configs d2 =
        some (Esp32DeviceConfig.new_uart d2)) := by
  obtain ⟨l1, l2, hdec⟩ := List.append_of_mem (alLookup_mem _ _ _ hcfg)
  have hn := hnodup
  rw [hdec, List.map_append, List.map_cons] at hn
  rw [List.nodup_append] at hn
  have hd_not_l1 : ∀ e ∈ l1, e.1 ≠ d := by
    intro e he heq
    exact (hn.2.2 (List.mem_map.mpr ⟨e, he, heq⟩)) (List.mem_cons_self _ _)
  have hd_not_l2 : ∀ e ∈ l2, e.1 ≠ d := by
    intro e he heq
    exact (List.nodup_cons.mp hn.2.1).1 (List.mem_map.mpr ⟨e, he, heq⟩)
  have hfold : (monitorAutoRegister (st.unified_activity_tracker.map
      (fun p => p.1)) st.device_configs).foldl (monitorCheckDevice now)
        (st.unified_activity_tracker, st.unified_connection_states, []) =
      l2.foldl (monitorCheckDevice now) (monitorCheckDevice now
        (l1.foldl (monitorCheckDevice now)
          (st.unified_activity_tracker, st.unified_connection_states, []))
        (d, cfg)) := by
    rw [hdec, List.foldl_append, List.foldl_cons]
  have h1 := monitor_fold_other now d l1
    (st.unified_activity_tracker, st.unified_connection_states, []) hd_not_l1
  have ht1 : alLookup (l1.foldl (monitorCheckDevice now)
      (st.unified_activity_tracker, st.unified_connection_states, [])).1 d =
      some t := h1.1.trans ht
  have hw1 : (alLookup (l1.foldl (monitorCheckDevice now)
      (st.unified_activity_tracker, st.unified_connection_states, [])).2.1
      d).getD false = true := by
    rw [h1.2.1]
    exact hconn
  have hfire := monitorCheckDevice_fire now
    (l1.foldl (monitorCheckDevice now)
      (st.unified_activity_tracker, st.unified_connection_states, []))
    d cfg t ht1 htimeout hw1
  have h2 := monitor_fold_other now d l2
    (monitorCheckDevice now (l1.foldl (monitorCheckDevice now)
      (st.unified_activity_tracker, st.unified_connection_states, []))
      (d, cfg)) hd_not_l2
  have hfilter1 : (l1.foldl (monitorCheckDevice now)
      (st.unified_activity_tracker, st.unified_connection_states,
        ([] : List DeviceEvent))).2.2.filter (fun e => e.isDisconnectFor d)
      = [] := h1.2.2
  have hswept_filter : ((monitorAutoRegister (st.unified_activity_tracker.map
      (fun p => p.1)) st.device_configs).foldl (monitorCheckDevice now)
        (st.unified_activity_tracker, st.unified_connection_states,
          [])).2.2.filter (fun e => e.isDisconnectFor d) =
      [DeviceEvent.esp32_connection_status d false cfg.ip_address cfg.tcp_port
        cfg.udp_port] := by
    rw [hfold, h2.2.2, hfire.2.2, hfilter1, List.nil_append]
  have hswept_states : alLookup ((monitorAutoRegister
      (st.unified_activity_tracker.map (fun p => p.1))
      st.device_configs).foldl (monitorCheckDevice now)
        (st.unified_activity_tracker, st.unified_connection_states, [])).2.1 d =
      some false := by
    rw [hfold, h2.2.1]
    exact hfire.2.1
  have hswept_tracker : alLookup ((monitorAutoRegister
      (st.unified_activity_tracker.map (fun p => p.1))
      st.device_configs).foldl (monitorCheckDevice now)
        (st.unified_activity_tracker, st.unified_connection_states, [])).1 d =
      none := by
    rw [hfold, h2.1]
    exact hfire.1
  refine ⟨hswept_filter, hswept_states, hswept_tracker, ?_, ?_⟩
  · unfold unified_timeout_monitor_tick
    dsimp only
    refine (monitor_fold_no_tracker now2 d _ _ ?_).2
    exact hswept_tracker
  · intro d2 hd2 hnone
    exact monitorAutoRegister_new _ _ _ hnone hd2

/-- Manager state for the C8 witness: one tracked UART device that has
been silent past its timeout. -/
def c8State : Esp32ManagerState :=
  { device_configs := [("u", Esp32DeviceConfig.new_uart "u")]
    sessions := []
    ip_to_device_id := []
    unified_activity_tracker := [("u", 0)]
    unified_connection_states := [("u", true)]
    device_connection_types := [("u", .Uart)] }

/-- C8 witness: the monitor theorem at the concrete one-device state, with
now = 31 s past the 30 s UART timeout. -/
theorem c8_liveness_monitor_tick_witness :
    ((unified_timeout_monitor_tick c8State 31).2.filter
      (fun e => e.isDisconnectFor "u")) =
      [DeviceEvent.esp32_connection_status "u" false "0.0.0.0" 0 0] ∧
    alLookup (unified_timeout_monitor_tick c8State
      31).1.unified_connection_states "u" = some false ∧
    alLookup (unified_timeout_monitor_tick c8State
      31).1.unified_activity_tracker "u" = none ∧
    ((unified_timeout_monitor_tick (unified_timeout_monitor_tick c8State 31).1
      99).2.filter (fun e => e.isDisconnectFor "u")) = [] ∧
    (∀ d2 ∈ c8State.unified_activity_tracker.map (fun p => p.1),
      alLookup c8State.device_configs d2 = none →
      alLookup (unified_timeout_monitor_tick c8State 31).1.device_configs d2 =
        some (Esp32DeviceConfig.new_uart d2)) :=
  c8_liveness_monitor_tick c8State 31 99 "u" (Esp32DeviceConfig.new_uart "u") 0
    (by decide) (by decide) (by decide) (by decide) (by decide)

/-! ## C2: edge-triggering of ConnectionStatus emission -/

theorem monitorCheckDevice_events_connfalse (now : Nat)
    (acc : List (String × Nat) × List (String × Bool) × List DeviceEvent)
    (entry : String × Esp32DeviceConfig)
    (h : acc.2.2.all (fun e => e.isConnectedFalse) = true) :
    (monitorCheckDevice now acc entry).2.2.all
      (fun e => e.isConnectedFalse) = true := by
  unfold monitorCheckDevice
  dsimp only
  cases hl : alLookup acc.1 entry.1 with
  | none => exact h
  | some t =>
    dsimp only
    by_cases he : now - t > entry.2.udp_timeout_seconds
    · rw [if_pos he]
      by_cases hw : (alLookup acc.2.1 entry.1).getD false = true
      · rw [hw]
        dsimp only
        rw [if_pos rfl, List.all_append, h, Bool.true_and]
        rfl
      · rw [Bool.not_eq_true] at hw
        rw [hw]
        dsimp only
        exact h
    · rw [if_neg he]
      exact h

theorem monitor_fold_events_connfalse (now : Nat)
    (entries : List (String × Esp32DeviceConfig))
    (acc : List (String × Nat) × List (String × Bool) × List DeviceEvent)
    (h : acc.2.2.all (fun e => e.isConnectedFalse) = true) :
    (entries.foldl (monitorCheckDevice now) acc).2.2.all
      (fun e => e.isConnectedFalse) = true := by
  induction entries generalizing acc with
  | nil => exact h
  | cons e rest ih =>
    rw [List.foldl_cons]
    exact ih _ (monitorCheckDevice_events_connfalse now acc e h)

theorem monitorCheckDevice_flag_false_step (now : Nat)
    (acc : List (String × Nat) × List (String × Bool) × List DeviceEvent)
    (entry : String × Esp32DeviceConfig) (d : String)
    (hw : (alLookup acc.2.1 d).getD false = false) :
    (alLookup (monitorCheckDevice now acc entry).2.1 d).getD false = false ∧
    (monitorCheckDevice now acc entry).2.2.filter (fun e => e.isDisconnectFor d) =
      acc.2.2.filter (fun e => e.isDisconnectFor d) := by
  obtain ⟨k, cfg⟩ := entry
  by_cases hd : k = d
  · subst hd
    have hk := monitorCheckDevice_noflag_keeps now acc k cfg hw
    refine ⟨?_, ?_⟩
    · rw [hk.1]
      exact hw
    · rw [hk.2]
  · have ho := monitorCheckDevice_other now acc (k, cfg) d hd
    refine ⟨?_, ho.2.2⟩
    rw [ho.2.1]
    exact hw

theorem monitor_fold_flag_false (now : Nat) (d : String)
    (entries : List (String × Esp32DeviceConfig))
    (acc : List (String × Nat) × List (String × Bool) × List DeviceEvent)
    (hw : (alLookup acc.2.1 d).getD false = false) :
    (alLookup (entries.foldl (monitorCheckDevice now) acc).2.1 d).getD false
      = false ∧
    (entries.foldl (monitorCheckDevice now) acc).2.2.filter
      (fun e => e.isDisconnectFor d) =
      acc.2.2.filter (fun e => e.isDisconnectFor d) := by
  induction entries generalizing acc with
  | nil => exact ⟨hw, rfl⟩
  | cons e rest ih =>
    rw [List.foldl_cons]
    have hs := monitorCheckDevice_flag_false_step now acc e d hw
    obtain ⟨h1, h2⟩ := ih _ hs.1
    exact ⟨h1, h2.trans hs.2⟩

theorem ingress_flag_false (st : Esp32ManagerState) (m : String) (p : Option Json)
    (d : String) (source : MessageSource) (now : Nat) (hat hct : Bool)
    (h : (alLookup st.unified_connection_states d).getD false = false) :
    alLookup (handle_message_unified m p d source now hat hct
      st).1.unified_connection_states d = some true ∧
    ((handle_message_unified m p d source now hat hct st).2.filter
      (fun e => e.isConnectionStatus)).length = 1 ∧
    ((handle_message_unified m p d source now hat hct st).2.filter
      (fun e => e.isConnectionStatus)).all (fun e => e.isConnectedTrue) = true := by
  have hparsed := filter_of_no_connstatus _ _ (parse_no_connstatus d m p)
    (fun e he => he)
  have hbc : ∀ (dd mm ip : String) (pt : Nat),
      (DeviceEvent.esp32_udp_broadcast dd mm ip pt).isConnectionStatus = false :=
    fun _ _ _ _ => rfl
  have hcs : ∀ (dd : String) (c : Bool) (ip : String) (tp up : Nat),
      (DeviceEvent.esp32_connection_status dd c ip tp up).isConnectionStatus
        = true :=
    fun _ _ _ _ _ => rfl
  have hctr : ∀ (dd ip : String) (tp up : Nat),
      (DeviceEvent.esp32_connection_status dd true ip tp up).isConnectedTrue
        = true :=
    fun _ _ _ _ => rfl
  cases source <;>
    refine ⟨?_, ?_, ?_⟩ <;>
      simp [handle_message_unified, h, hparsed, List.filter_append, hbc, hcs,
        hctr, alLookup_alInsert_self]

theorem ingress_flag_true (st : Esp32ManagerState) (m : String) (p : Option Json)
    (d : String) (source : MessageSource) (now : Nat) (hat hct : Bool)
    (h : (alLookup st.unified_connection_states d).getD false = true) :
    (handle_message_unified m p d source now hat hct
      st).1.unified_connection_states = st.unified_connection_states ∧
    (handle_message_unified m p d source now hat hct st).2.filter
      (fun e => e.isConnectionStatus) = [] := by
  have hparsed := filter_of_no_connstatus _ _ (parse_no_connstatus d m p)
    (fun e he => he)
  have hbc : ∀ (dd mm ip : String) (pt : Nat),
      (DeviceEvent.esp32_udp_broadcast dd mm ip pt).isConnectionStatus = false :=
    fun _ _ _ _ => rfl
  cases source <;>
    refine ⟨?_, ?_⟩ <;>
      simp [handle_message_unified, h, hparsed, List.filter_append, hbc]

theorem connectProceed_events_connTrue (st : Esp32ManagerState) (d : String)
    (sess : SessionState) (ok so : Bool) (now : Nat) :
    ((connectProceed st d sess ok so now).2.2.all
      (fun e => e.isConnectedTrue)) = true := by
  cases ok with
  | false => rfl
  | true =>
    unfold connectProceed
    dsimp only
    cases hc : alLookup st.device_configs d with
    | none =>
      dsimp only
      cases so with
      | false => rfl
      | true => rfl
    | some config =>
      dsimp only
      cases so with
      | false => rfl
      | true => rfl

theorem connect_device_events_connTrue (st : Esp32ManagerState) (d : String)
    (ok so : Bool) (now : Nat) :
    ((st.connect_device d ok so now).2.2.all (fun e => e.isConnectedTrue)) = true := by
  unfold Esp32ManagerState.connect_device
  cases hs : alLookup st.sessions d with
  | none => rfl
  | some sess =>
    dsimp only
    cases hcs : sess.connection_state with
    | Connected => rfl
    | Connecting => exact connectProceed_events_connTrue st d sess ok so now
    | Disconnected =>
      dsimp only
      cases hc : alLookup st.device_configs d with
      | none => rfl
      | some config => exact connectProceed_events_connTrue _ d _ ok so now
    | Failed r =>
      dsimp only
      cases hc : alLookup st.device_configs d with
      | none => rfl
      | some config => exact connectProceed_events_connTrue _ d _ ok so now

/-- C2 counterexample: in the state reached after a UDP datagram from the
demo device the connected flag for "d" is already true, yet connect_device
still emits two ConnectionStatus connected=true events (the session-level
event and the manager workaround event): the emission is not edge-triggered
on the connect_device path. -/
theorem c2_connect_device_counterexample :
    alLookup c2StateAfterIngress.unified_connection_states "d" = some true ∧
    (c2StateAfterIngress.connect_device "d" true true 1).2.2 =
      [DeviceEvent.esp32_connection_status "d" true "1.2.3.4" 3232 3232,
       DeviceEvent.esp32_connection_status "d" true "1.2.3.4" 3232 3232] :=
  ⟨rfl, rfl⟩

/-- C2 (amended): the unified ingress path is edge-triggered — when the
tracked flag is false it emits exactly one ConnectionStatus (connected=true)
and sets the flag, and when the flag is already true it emits no
ConnectionStatus at all and leaves the flag map unchanged; the timeout
monitor emits only connected=false events and none for a device whose flag
is false (so false is emitted only on a true-to-false transition there);
but connect_device is NOT edge-triggered: every ConnectionStatus it emits
is connected=true, emitted regardless of the current flag value. -/
theorem c2_edge_trigger_amended (st : Esp32ManagerState) (m : String)
    (p : Option Json) (d : String) (source : MessageSource)
    (now now2 : Nat) (hat hct ok so : Bool) :
    ((alLookup st.unified_connection_states d).getD false = false →
      alLookup (handle_message_unified m p d source now hat hct
        st).1.unified_connection_states d = some true ∧
      ((handle_message_unified m p d source now hat hct st).2.filter
        (fun e => e.isConnectionStatus)).length = 1 ∧
      ((handle_message_unified m p d source now hat hct st).2.filter
        (fun e => e.isConnectionStatus)).all (fun e => e.isConnectedTrue) = true) ∧
    ((alLookup st.unified_connection_states d).getD false = true →
      (handle_message_unified m p d source now hat hct
        st).1.unified_connection_states = st.unified_connection_states ∧
      (handle_message_unified m p d source now hat hct st).2.filter
        (fun e => e.isConnectionStatus) = []) ∧
    ((unified_timeout_monitor_tick st now2).2.all
      (fun e => e.isConnectedFalse)) = true ∧
    ((alLookup st.unified_connection_states d).getD false = false →
      (unified_timeout_monitor_tick st now2).2.filter
        (fun e => e.isDisconnectFor d) = []) ∧
    ((st.connect_device d ok so now).2.2.all (fun e => e.isConnectedTrue)) = true := by
  refine ⟨fun h => ingress_flag_false st m p d source now hat hct h,
    fun h => ingress_flag_true st m p d source now hat hct h, ?_, fun h => ?_,
    connect_device_events_connTrue st d ok so now⟩
  · unfold unified_timeout_monitor_tick
    dsimp only
    refine monitor_fold_events_connfalse now2 _ _ ?_
    rfl
  · unfold unified_timeout_monitor_tick
    dsimp only
    refine (monitor_fold_flag_false now2 d _ _ ?_).2
    exact h

/-- C2 witness: the amended theorem applied at concrete states — a fresh
device (flag false) for the rising edge, the post-ingress state (flag true)
for the suppressed re-emission, and an untracked id for monitor silence. -/
theorem c2_edge_trigger_amended_witness :
    alLookup (handle_message_unified "x" none "d" (.Udp "1.2.3.4" 3232) 0 true
      true (Esp32ManagerState.empty.add_device
        demoConfig)).1.unified_connection_states "d" = some true ∧
    (handle_message_unified "y" none "d" (.Udp "1.2.3.4" 3232) 5 true true
      c2StateAfterIngress).2.filter (fun e => e.isConnectionStatus) = [] ∧
    (unified_timeout_monitor_tick c2StateAfterIngress 99).2.filter
      (fun e => e.isDisconnectFor "x") = [] ∧
    ((c2StateAfterIngress.connect_device "d" true true 1).2.2.all
      (fun e => e.isConnectedTrue)) = true :=
  ⟨((c2_edge_trigger_amended (Esp32ManagerState.empty.add_device demoConfig)
      "x" none "d" (.Udp "1.2.3.4" 3232) 0 0 true true true true).1
      (by decide)).1,
   ((c2_edge_trigger_amended c2StateAfterIngress "y" none "d"
      (.Udp "1.2.3.4" 3232) 5 0 true true true true).2.1 (by decide)).2,
   (c2_edge_trigger_amended c2StateAfterIngress "m" none "x" (.Udp "1.1.1.1" 1)
      0 99 true true true true).2.2.2.1 (by decide),
   (c2_edge_trigger_amended c2StateAfterIngress "m" none "d" (.Udp "1.2.3.4" 3232)
      1 0 true true true true).2.2.2.2⟩

/-! ## C7: the TCP frame extractor -/

theorem scanGo_some (s : ScanSt) (acc cs p r : List Char)
    (h : scanGo s acc cs = some (p, r)) :
    ∃ q c, cs = (q ++ [c]) ++ r ∧ p = acc ++ (q ++ [c]) ∧
      isTrigger (scanFoldFrom s q) c ∧
      ∀ q2 c2 t2, cs = (q2 ++ [c2]) ++ t2 → isTrigger (scanFoldFrom s q2) c2 →
        (q ++ [c]).length ≤ (q2 ++ [c2]).length := by
  induction cs generalizing s acc with
  | nil => exact absurd h (by simp [scanGo])
  | cons c0 rest ih =>
    simp only [scanGo] at h
    by_cases ht : isTrigger s c0
    · rw [if_pos ht] at h
      have h2 : (acc ++ [c0], rest) = (p, r) := Option.some.inj h
      injection h2 with hpr hrr
      refine ⟨[], c0, ?_, ?_, ?_, ?_⟩
      · rw [← hrr]
        rfl
      · rw [← hpr]
        simp
      · exact ht
      · intro q2 c2 t2 heq htrig2
        simp only [List.length_append, List.length_nil, List.length_cons]
        omega
    · rw [if_neg ht] at h
      obtain ⟨q2, c2, htext, hp, htrig, hmin⟩ := ih (scanStep s c0) (acc ++ [c0]) h
      refine ⟨c0 :: q2, c2, ?_, ?_, ?_, ?_⟩
      · rw [htext]
        rfl
      · rw [hp]
        simp
      · exact htrig
      · intro q3 c3 t3 heq htrig3
        cases q3 with
        | nil =>
          have hc3 : c3 = c0 := by
            have := congrArg (fun l => l.headD c0) heq
            simpa using this.symm
          subst hc3
          exact absurd htrig3 ht
        | cons a q3t =>
          have ha : a = c0 ∧ rest = (q3t ++ [c3]) ++ t3 := by
            have h1 := congrArg (fun l => l.headD c0) heq
            have h2 := congrArg List.tail heq
            simp at h1 h2
            exact ⟨h1.symm, by simpa using h2⟩
          obtain ⟨ha1, ha2⟩ := ha
          rw [ha1] at htrig3
          have hle := hmin q3t c3 t3 ha2 htrig3
          simp only [List.length_append, List.length_nil, List.length_cons]
            at hle ⊢
          omega

theorem scanGo_none (s : ScanSt) (acc cs : List Char)
    (h : scanGo s acc cs = none) :
    ∀ q c t, cs = (q ++ [c]) ++ t → ¬ isTrigger (scanFoldFrom s q) c := by
  induction cs generalizing s acc with
  | nil =>
    intro q c t heq _
    cases q <;> simp at heq
  | cons c0 rest ih =>
    intro q c t heq htr
    simp only [scanGo] at h
    by_cases ht : isTrigger s c0
    · rw [if_pos ht] at h
      exact absurd h (by simp)
    · rw [if_neg ht] at h
      cases q with
      | nil =>
        have hc : c = c0 := by
          have := congrArg (fun l => l.headD c0) heq
          simpa using this.symm
        subst hc
        exact ht htr
      | cons a qt =>
        have ha : a = c0 ∧ rest = (qt ++ [c]) ++ t := by
          have h1 := congrArg (fun l => l.headD c0) heq
          have h2 := congrArg List.tail heq
          simp at h1 h2
          exact ⟨h1.symm, by simpa using h2⟩
        obtain ⟨ha1, ha2⟩ := ha
        rw [ha1] at htr
        exact ih (scanStep s c0) (acc ++ [c0]) h qt c t ha2 htr

theorem scanStep_depth (s : ScanSt) (c : Char) :
    (scanStep s c).depth = s.depth ∨ (scanStep s c).depth = s.depth + 1 ∨
      ((scanStep s c).depth = s.depth - 1 ∧ s.esc = false ∧ s.inStr = false ∧
        c = '}') := by
  unfold scanStep
  split_ifs with h1 h2 h3 h4 h5
  · exact Or.inl rfl
  · exact Or.inl rfl
  · exact Or.inl rfl
  · exact Or.inr (Or.inl rfl)
  · refine Or.inr (Or.inr ⟨rfl, ?_, ?_, h5.1⟩)
    · exact Bool.eq_false_iff.mpr h1
    · simpa using h5.2
  · exact Or.inl rfl

theorem scan_crossing (cs : List Char) (s : ScanSt) (hpos : 0 < s.depth)
    (hend : (scanFoldFrom s cs).depth ≤ 0) :
    ∃ q c t, cs = (q ++ [c]) ++ t ∧ isTrigger (scanFoldFrom s q) c := by
  induction cs generalizing s with
  | nil =>
    exfalso
    have hz : s.depth ≤ 0 := hend
    omega
  | cons c0 rest ih =>
    by_cases hc : (scanStep s c0).depth ≤ 0
    · rcases scanStep_depth s c0 with h | h | ⟨hd, hesc, hstr, hcc⟩
      · exfalso
        omega
      · exfalso
        omega
      · have hd1 : s.depth = 1 := by omega
        exact ⟨[], c0, rest, by simp, hesc, hstr, hcc, hd1⟩
    · push_neg at hc
      have hend2 : (scanFoldFrom (scanStep s c0) rest).depth ≤ 0 := hend
      obtain ⟨q, c, t, heq, htr⟩ := ih (scanStep s c0) hc hend2
      refine ⟨c0 :: q, c, t, ?_, htr⟩
      simp [heq]

theorem trigger_completeFrame (q : List Char) (c : Char)
    (h : isTrigger (scanFoldFrom ScanSt.init q) c) :
    completeFrame (q ++ [c]) := by
  obtain ⟨hesc, hstr, hc, hd⟩ := h
  have hstep : scanFoldFrom ScanSt.init (q ++ [c]) =
      scanStep (scanFoldFrom ScanSt.init q) c := by
    simp [scanFoldFrom, List.foldl_append]
  have hne1 : (c = '\\' ∧ (scanFoldFrom ScanSt.init q).inStr = true) → False := by
    intro hx
    rw [hstr] at hx
    exact Bool.false_ne_true hx.2
  refine ⟨by simp, ?_, ⟨q, [c], rfl, by omega⟩⟩
  rw [hstep]
  subst hc
  unfold scanStep
  rw [if_neg (by rw [hesc]; exact Bool.false_ne_true),
    if_neg (by intro hx; rw [hstr] at hx; exact absurd hx.1 (by decide)),
    if_neg (by decide), if_neg (by intro hx; exact absurd hx.1 (by decide)),
    if_pos ⟨rfl, by rw [hstr]; rfl⟩]
  dsimp only
  omega

theorem completeFrame_trigger (p : List Char) (h : completeFrame p) :
    ∃ q c t, p = (q ++ [c]) ++ t ∧ isTrigger (scanFoldFrom ScanSt.init q) c := by
  obtain ⟨hne, hzero, q0, t0, hsplit, hpos⟩ := h
  have happ : scanFoldFrom ScanSt.init (q0 ++ t0) =
      scanFoldFrom (scanFoldFrom ScanSt.init q0) t0 := by
    simp [scanFoldFrom, List.foldl_append]
  have hend : (scanFoldFrom (scanFoldFrom ScanSt.init q0) t0).depth ≤ 0 := by
    rw [← happ, hsplit, hzero]
  obtain ⟨qq, cc, tt, hteq, htr⟩ := scan_crossing t0 _ hpos hend
  refine ⟨q0 ++ qq, cc, tt, ?_, ?_⟩
  · rw [← hsplit, hteq]
    simp
  · have happ2 : scanFoldFrom ScanSt.init (q0 ++ qq) =
        scanFoldFrom (scanFoldFrom ScanSt.init q0) qq := by
      simp [scanFoldFrom, List.foldl_append]
    rw [happ2]
    exact htr

theorem extract_some_inv (buffer frame rest : List Char)
    (h : extract_complete_json buffer = (some frame, rest)) :
    scanGo ScanSt.init [] (buffer.dropWhile Char.isWhitespace) =
      some (frame, rest) := by
  unfold extract_complete_json at h
  dsimp only at h
  by_cases hemp : (buffer.dropWhile Char.isWhitespace).isEmpty = true
  · rw [if_pos hemp] at h
    exact absurd (congrArg Prod.fst h) (by simp)
  · rw [if_neg hemp] at h
    cases hsg : scanGo ScanSt.init [] (buffer.dropWhile Char.isWhitespace) with
    | none =>
      rw [hsg] at h
      exact absurd (congrArg Prod.fst h) (by simp)
    | some pr =>
      obtain ⟨j, r0⟩ := pr
      rw [hsg] at h
      have h2 : ((some j : Option (List Char)), r0) = (some frame, rest) := h
      injection h2 with hfst hsnd
      injection hfst with hj
      rw [hj, hsnd]

/-- C7: extract_complete_json, applied to any accumulator content, either
returns a frame and the remainder whose concatenation is the whitespace-
trimmed accumulator, the frame being a string-and-escape-aware balanced
chunk (completeFrame, modelled from the spec) and the shortest such prefix
of the trimmed text; or returns none leaving the accumulator unchanged, in
which case no prefix of the trimmed text is a balanced chunk.  On the glued
input of the spec it produces exactly the two frames in order. -/
theorem c7_extract_complete_json (buffer : List Char) :
    (∀ frame rest, extract_complete_json buffer = (some frame, rest) →
      frame ++ rest = buffer.dropWhile Char.isWhitespace ∧
      completeFrame frame ∧
      (∀ p t, p ++ t = buffer.dropWhile Char.isWhitespace → completeFrame p →
        frame.length ≤ p.length)) ∧
    ((extract_complete_json buffer).1 = none →
      extract_complete_json buffer = (none, buffer) ∧
      (∀ p t, p ++ t = buffer.dropWhile Char.isWhitespace →
        ¬ completeFrame p)) ∧
    extract_complete_json gluedInput = (some frameA, frameB) ∧
    extract_complete_json frameB = (some frameB, []) := by
  refine ⟨?_, ?_, rfl, rfl⟩
  · intro frame rest h
    have hsg := extract_some_inv buffer frame rest h
    obtain ⟨q, c, htext, hp, htr, hmin⟩ :=
      scanGo_some ScanSt.init [] (buffer.dropWhile Char.isWhitespace)
        frame rest hsg
    have hframe : frame = q ++ [c] := by simpa using hp
    refine ⟨?_, ?_, ?_⟩
    · rw [hframe]
      exact htext.symm
    · rw [hframe]
      exact trigger_completeFrame q c htr
    · intro p t hpt hcf
      obtain ⟨q2, cc, tt, hpeq, htr2⟩ := completeFrame_trigger p hcf
      have hmin2 := hmin q2 cc (tt ++ t) (by rw [← hpt, hpeq]; simp) htr2
      rw [hframe]
      calc (q ++ [c]).length ≤ (q2 ++ [cc]).length := hmin2
        _ ≤ p.length := by
          rw [hpeq]
          simp only [List.length_append]
          omega
  · intro h
    by_cases hemp : (buffer.dropWhile Char.isWhitespace).isEmpty = true
    · have htext : buffer.dropWhile Char.isWhitespace = [] := by
        simpa using hemp
      constructor
      · unfold extract_complete_json
        dsimp only
        rw [if_pos hemp]
      · intro p t hpt hcf
        rw [htext] at hpt
        have hp : p = [] := by
          cases p with
          | nil => rfl
          | cons a l => simp at hpt
        exact absurd hp hcf.1
    · cases hsg : scanGo ScanSt.init [] (buffer.dropWhile Char.isWhitespace) with
      | some pr =>
        exfalso
        obtain ⟨j, r0⟩ := pr
        unfold extract_complete_json at h
        dsimp only at h
        rw [if_neg hemp, hsg] at h
        have h2 : (some j : Option (List Char)) = none := h
        exact absurd h2 (by simp)
      | none =>
        constructor
        · unfold extract_complete_json
          dsimp only
          rw [if_neg hemp, hsg]
        · intro p t hpt hcf
          obtain ⟨q2, cc, tt, hpeq, htr2⟩ := completeFrame_trigger p hcf
          refine scanGo_none ScanSt.init []
            (buffer.dropWhile Char.isWhitespace) hsg q2 cc (tt ++ t) ?_ htr2
          rw [← hpt, hpeq]
          simp

/-- C7 witness: the extractor theorem applied at the glued input (the frame
it returns is a balanced chunk splitting the input) and at an incomplete
buffer (no prefix is a balanced chunk). -/
theorem c7_extract_complete_json_witness :
    completeFrame frameA ∧
    frameA ++ frameB = gluedInput.dropWhile Char.isWhitespace ∧
    ¬ completeFrame ['\x7b'] :=
  ⟨((c7_extract_complete_json gluedInput).1 frameA frameB rfl).2.1,
   ((c7_extract_complete_json gluedInput).1 frameA frameB rfl).1,
   ((c7_extract_complete_json ['\x7b']).2.1 rfl).2 ['\x7b'] [] rfl⟩

end Backend
